import Mathlib

/-!
Shallow embedding of `src/coreclr/src/jit/hwintrinsiccodegenarm64.cpp`:
the ARM64 hardware-intrinsic code-generation stage of the JIT.

The instruction stream produced by the low-level emitter is modelled as a
linear trace of events (one per `emitIns_*` call and one per inline
temporary-label definition).  Labels are allocated from a counter, mirroring
`genCreateTempLabel`.  Fatal compiler assertions (`assert`, `unreached`) are
modelled by returning `Except.error` carrying the emission state at the point
where the assertion fired, so that a failed assertion provably emits nothing
further.
-/

/-- Physical register as assigned by the register allocator; `NA` is `REG_NA`
(the sentinel returned by `GetRegNum` on contained operands). -/
inductive Reg where
  | NA : Reg
  | R : Nat → Reg
deriving DecidableEq

/-- The JIT `var_types` element types that this code-generation stage consumes. -/
inductive var_types where
  | TYP_BYTE | TYP_UBYTE | TYP_SHORT | TYP_USHORT
  | TYP_INT | TYP_UINT | TYP_LONG | TYP_ULONG
  | TYP_FLOAT | TYP_DOUBLE
deriving DecidableEq

/-- Modelled from the spec: `elementSize(baseType)`.  The function
`genTypeSize` is declared outside this translation unit; it returns the byte
size of a `var_types` value (standard JIT type sizes). -/
def genTypeSize : var_types → Nat
  | .TYP_BYTE => 1
  | .TYP_UBYTE => 1
  | .TYP_SHORT => 2
  | .TYP_USHORT => 2
  | .TYP_INT => 4
  | .TYP_UINT => 4
  | .TYP_LONG => 8
  | .TYP_ULONG => 8
  | .TYP_FLOAT => 4
  | .TYP_DOUBLE => 8

/-- Modelled from the spec: `varTypeIsFloating` (declared outside this
translation unit) is true exactly for the floating element types. -/
def varTypeIsFloating (t : var_types) : Bool :=
  match t with
  | .TYP_FLOAT => true
  | .TYP_DOUBLE => true
  | _ => false

/-- Modelled from the spec: `emitTypeSize` (declared outside this translation
unit) is the `emitAttr` matching the byte size of the type. -/
def emitTypeSize (t : var_types) : Nat := genTypeSize t

/-- Modelled from the spec: `emitActualTypeSize` (declared outside this
translation unit) is the byte size of the stack-normalized (at least 4-byte)
type, used for the scalar categories. -/
def emitActualTypeSize (t : var_types) : Nat := max 4 (genTypeSize t)

/-- The closed enumeration of intrinsic identifiers that this file's special
path names, plus `other` for the remaining (table-driven) identifiers. -/
inductive NamedIntrinsic where
  | NI_Crc32_ComputeCrc32
  | NI_Crc32_ComputeCrc32C
  | NI_Crc32_Arm64_ComputeCrc32
  | NI_Crc32_Arm64_ComputeCrc32C
  | NI_AdvSimd_BitwiseSelect
  | NI_AdvSimd_CompareLessThan
  | NI_AdvSimd_CompareLessThanOrEqual
  | NI_AdvSimd_Arm64_CompareLessThan
  | NI_AdvSimd_Arm64_CompareLessThanScalar
  | NI_AdvSimd_Arm64_CompareLessThanOrEqual
  | NI_AdvSimd_Arm64_CompareLessThanOrEqualScalar
  | NI_AdvSimd_AbsoluteCompareLessThan
  | NI_AdvSimd_AbsoluteCompareLessThanOrEqual
  | NI_AdvSimd_Arm64_AbsoluteCompareLessThan
  | NI_AdvSimd_Arm64_AbsoluteCompareLessThanScalar
  | NI_AdvSimd_Arm64_AbsoluteCompareLessThanOrEqual
  | NI_AdvSimd_Arm64_AbsoluteCompareLessThanOrEqualScalar
  | NI_AdvSimd_FusedMultiplyAddScalar
  | NI_AdvSimd_FusedMultiplyAddNegatedScalar
  | NI_AdvSimd_FusedMultiplySubtractNegatedScalar
  | NI_AdvSimd_FusedMultiplySubtractScalar
  | NI_AdvSimd_Store
  | NI_AdvSimd_Extract
  | NI_AdvSimd_ExtractVector64
  | NI_AdvSimd_ExtractVector128
  | NI_AdvSimd_Insert
  | NI_Vector64_CreateScalarUnsafe
  | NI_Vector128_CreateScalarUnsafe
  | NI_Vector64_get_Zero
  | NI_Vector64_get_AllBitsSet
  | NI_Vector128_get_Zero
  | NI_Vector128_get_AllBitsSet
  | other : Nat → NamedIntrinsic
deriving DecidableEq

/-- ARM64 instructions named in the source; `lookup id baseType` stands for
the opcode returned by the external oracle `HWIntrinsicInfo::lookupIns`
(always a valid opcode, hence distinct from `INS_invalid`). -/
inductive instruction where
  | INS_invalid
  | INS_mov
  | INS_cbnz
  | INS_adr
  | INS_add
  | INS_br
  | INS_b
  | INS_bsl
  | INS_bif
  | INS_bit
  | INS_crc32w
  | INS_crc32cw
  | INS_crc32x
  | INS_crc32cx
  | INS_fmov
  | INS_movi
  | lookup : NamedIntrinsic → var_types → instruction
deriving DecidableEq

/-- The `insOpts` lane-shape qualifiers used in the source. -/
inductive insOpts where
  | INS_OPTS_NONE
  | INS_OPTS_LSL
  | INS_OPTS_8B
  | INS_OPTS_16B
  | INS_OPTS_2S
  | INS_OPTS_4S
  | INS_OPTS_1D
  | INS_OPTS_2D
  | INS_OPTS_4H
  | INS_OPTS_8H
deriving DecidableEq

/-- One event of the emitted instruction stream: one constructor per
`emitIns_*` entry point used by the source, plus inline label definitions.
Sizes (`emitAttr`) are byte counts.  Float immediates are carried as opaque
bit payloads (they are never interpreted by this stage). -/
inductive Event where
  | insRR : instruction → Nat → Reg → Reg → insOpts → Event
  | insRRR : instruction → Nat → Reg → Reg → Reg → insOpts → Event
  | insRRI : instruction → Nat → Reg → Reg → Int → insOpts → Event
  | insRRII : instruction → Nat → Reg → Reg → Int → Int → insOpts → Event
  | insRRRI : instruction → Nat → Reg → Reg → Reg → Int → insOpts → Event
  | insRRRR : instruction → Nat → Reg → Reg → Reg → Reg → Event
  | insRI : instruction → Nat → Reg → Int → insOpts → Event
  | insRF : instruction → Nat → Reg → Nat → insOpts → Event
  | insJR : instruction → Nat → Nat → Reg → Event
  | insRL : instruction → Nat → Nat → Reg → Event
  | insR : instruction → Nat → Reg → Event
  | insJ : instruction → Nat → Event
  | defineLabel : Nat → Event
deriving DecidableEq

/-- The state of the low-level emitter: the instruction trace so far and the
counter that `genCreateTempLabel` allocates temporary labels from. -/
structure EmitState where
  trace : List Event
  nextLabel : Nat
deriving DecidableEq

/-- The empty emitter state. -/
def emptyState : EmitState := { trace := [], nextLabel := 0 }

/-- Append one emitted instruction (an `emitIns_*` call) to the stream. -/
def emit (e : Event) (s : EmitState) : EmitState :=
  { s with trace := s.trace ++ [e] }

/-- Embeds `CodeGen::genCreateTempLabel`: allocates a fresh temporary label. -/
def genCreateTempLabel (s : EmitState) : Nat × EmitState :=
  (s.nextLabel, { s with nextLabel := s.nextLabel + 1 })

/-- Embeds `CodeGen::genDefineInlineTempLabel`: pins a label at the current
position of the instruction stream. -/
def genDefineInlineTempLabel (lbl : Nat) (s : EmitState) : EmitState :=
  emit (.defineLabel lbl) s

/-- An operand node after register allocation: either evaluated into a
physical register, or a contained (not materialized) integer or
floating-point constant. -/
inductive GenTree where
  | reg : Nat → GenTree
  | intCon : Int → GenTree
  | dblCon : Nat → GenTree
deriving DecidableEq

/-- Embeds `GenTree::GetRegNum`; contained constants carry no register. -/
def GenTree.GetRegNum : GenTree → Reg
  | .reg r => .R r
  | _ => .NA

/-- Embeds `GenTree::isContainedIntOrIImmed`. -/
def GenTree.isContainedIntOrIImmed : GenTree → Bool
  | .intCon _ => true
  | _ => false

/-- Embeds `GenTree::isContainedFltOrDblImmed`. -/
def GenTree.isContainedFltOrDblImmed : GenTree → Bool
  | .dblCon _ => true
  | _ => false

/-- Embeds `AsIntCon()->IconValue()` (only ever read on contained integer
constants). -/
def GenTree.intConValue : GenTree → Int
  | .intCon v => v
  | _ => 0

/-- Embeds `AsDblCon()->gtDconVal` as the opaque bit payload (only ever read
on contained floating constants). -/
def GenTree.dblConBits : GenTree → Nat
  | .dblCon b => b
  | _ => 0

/-- The intrinsic categories this stage branches on. -/
inductive HWCategory where
  | HW_Category_SimpleSIMD
  | HW_Category_SIMDScalar
  | HW_Category_Scalar
  | HW_Category_Special
deriving DecidableEq

/-- A resolved hardware-intrinsic node together with the answers of the
external `HWIntrinsicInfo` oracle for it (`immUpperBound`,
`generatesMultipleIns`, `lookupNumArgs`, the table-driven flag), the
register-allocator results (`targetReg`, `singleTempReg`), the RMW flag
computed by `isRMWHWIntrinsic`, and the `genGetSimdInsOpt` result. -/
structure GenTreeHWIntrinsic where
  id : NamedIntrinsic
  category : HWCategory
  baseType : var_types
  simdSize : Nat
  numOperands : Nat
  op1 : Option GenTree
  op2 : Option GenTree
  op3 : Option GenTree
  targetReg : Reg
  isRMW : Bool
  tableDriven : Bool
  lookupNumArgs : Nat
  immUpperBound : Int
  generatesMultipleIns : Bool
  singleTempReg : Reg
  simdInsOpt : insOpts
deriving DecidableEq

/-- The per-operand dispatch state of `CodeGen::HWIntrinsicImmOpHelper`. -/
structure HWIntrinsicImmOpHelper where
  endLabel : Option Nat
  nonZeroLabel : Option Nat
  branchTargetReg : Reg
  nonConstImmReg : Reg
  immValue : Int
  immUpperBound : Int
deriving DecidableEq

/-- Modelled from the spec: `NonConstImmOp` is declared in `codegen.h` (not
under `src/`); the immediate operand is non-constant exactly when it is held
in a register. -/
def HWIntrinsicImmOpHelper.NonConstImmOp (h : HWIntrinsicImmOpHelper) : Bool :=
  decide (h.nonConstImmReg ≠ Reg.NA)

/-- Modelled from the spec: `TestImmOpZeroOrOne` is declared in `codegen.h`
(not under `src/`); the branch-on-nonzero mode applies exactly when the
non-constant operand ranges over the two values 0 and 1. -/
def HWIntrinsicImmOpHelper.TestImmOpZeroOrOne (h : HWIntrinsicImmOpHelper) : Bool :=
  h.NonConstImmOp && decide (h.immUpperBound = 2)

/-- Modelled from the spec: `Done` is declared in `codegen.h` (not under
`src/`); it is true once `currentValue` equals `upperBoundExclusive`. -/
def HWIntrinsicImmOpHelper.Done (h : HWIntrinsicImmOpHelper) : Bool :=
  decide (h.immValue = h.immUpperBound)

/-- Embeds `ImmValue` (declared in `codegen.h`): the current case's
compile-time immediate value. -/
def HWIntrinsicImmOpHelper.ImmValue (h : HWIntrinsicImmOpHelper) : Int :=
  h.immValue

/-- Embeds the constructor `CodeGen::HWIntrinsicImmOpHelper::HWIntrinsicImmOpHelper`.
The `isImmOp` oracle assertion is an external-table consistency check and is
assumed to hold.  `immUpperBound` of the node stands for the oracle call
`HWIntrinsicInfo::lookupImmUpperBound`; a firing of the
`GeneratesMultipleIns` assertion is the `Except.error` case. -/
def mkImmOpHelper (node : GenTreeHWIntrinsic) (immOp : GenTree) (s : EmitState) :
    Except EmitState (HWIntrinsicImmOpHelper × EmitState) :=
  if immOp.isContainedIntOrIImmed then
    .ok ({ endLabel := none, nonZeroLabel := none, branchTargetReg := .NA,
           nonConstImmReg := .NA, immValue := immOp.intConValue,
           immUpperBound := immOp.intConValue + 1 }, s)
  else
    let nonConstImmReg := immOp.GetRegNum
    let immUpperBound := node.immUpperBound
    if nonConstImmReg ≠ Reg.NA ∧ immUpperBound = 2 then
      let (nz, s1) := genCreateTempLabel s
      let (endL, s2) := genCreateTempLabel s1
      .ok ({ endLabel := some endL, nonZeroLabel := some nz, branchTargetReg := .NA,
             nonConstImmReg := nonConstImmReg, immValue := 0,
             immUpperBound := immUpperBound }, s2)
    else
      if node.generatesMultipleIns then
        .error s
      else
        let branchTargetReg := node.singleTempReg
        let (endL, s1) := genCreateTempLabel s
        .ok ({ endLabel := some endL, nonZeroLabel := none,
               branchTargetReg := branchTargetReg, nonConstImmReg := nonConstImmReg,
               immValue := 0, immUpperBound := immUpperBound }, s1)

/-- Embeds `CodeGen::HWIntrinsicImmOpHelper::EmitBegin`: a no-op for a
constant immediate; a `cbnz` in the zero-or-one mode; an
`adr` / `add lsl 3` / `br` jump-table dispatch otherwise.  In both
non-constant modes the begin label is defined right after the emitted code. -/
def EmitBegin (h : HWIntrinsicImmOpHelper) (s : EmitState) : EmitState :=
  if h.NonConstImmOp then
    let (beginLabel, s1) := genCreateTempLabel s
    let s2 :=
      if h.TestImmOpZeroOrOne then
        emit (.insJR .INS_cbnz 4 (h.nonZeroLabel.getD 0) h.nonConstImmReg) s1
      else
        let sa := emit (.insRL .INS_adr 8 beginLabel h.branchTargetReg) s1
        let sb := emit (.insRRRI .INS_add 8 h.branchTargetReg h.branchTargetReg
          h.nonConstImmReg 3 .INS_OPTS_LSL) sa
        emit (.insR .INS_br 8 h.branchTargetReg) sb
    genDefineInlineTempLabel beginLabel s2
  else
    s

/-- Embeds `CodeGen::HWIntrinsicImmOpHelper::EmitCaseEnd`: asserts `!Done()`
(the `Except.error` case), then for a non-constant immediate either defines
the end label (last case) or emits `b endLabel` followed by the nonzero-case
label definition (zero-or-one mode) or a fresh per-case label definition
(jump-table mode); finally increments the current immediate value. -/
def EmitCaseEnd (h : HWIntrinsicImmOpHelper) (s : EmitState) :
    Except EmitState (HWIntrinsicImmOpHelper × EmitState) :=
  if h.Done then
    .error s
  else
    let s' :=
      if h.NonConstImmOp then
        if h.immValue + 1 = h.immUpperBound then
          genDefineInlineTempLabel (h.endLabel.getD 0) s
        else
          let sb := emit (.insJ .INS_b (h.endLabel.getD 0)) s
          if h.TestImmOpZeroOrOne then
            genDefineInlineTempLabel (h.nonZeroLabel.getD 0) sb
          else
            let (tempLabel, sc) := genCreateTempLabel sb
            genDefineInlineTempLabel tempLabel sc
      else
        s
    .ok ({ h with immValue := h.immValue + 1 }, s')

/-- Fuel-indexed unfolding of the source's for-loop
`for (helper.EmitBegin(); !helper.Done(); helper.EmitCaseEnd()) body`
after `EmitBegin`; the fuel is a bound on the remaining iterations (the
entry point below always passes exactly the remaining count). -/
def runImmLoopFuel (body : Int → EmitState → EmitState) :
    Nat → HWIntrinsicImmOpHelper → EmitState → Except EmitState EmitState
  | 0, h, s => if h.Done then .ok s else .error s
  | n + 1, h, s =>
    if h.Done then
      .ok s
    else
      match EmitCaseEnd h (body h.ImmValue s) with
      | .error s' => .error s'
      | .ok (h', s') => runImmLoopFuel body n h' s'

/-- The source's for-loop over the cases of one immediate-dispatch helper
(run after `EmitBegin`): executes the body at the current immediate value and
calls `EmitCaseEnd` until `Done()`. -/
def runImmLoop (body : Int → EmitState → EmitState) (h : HWIntrinsicImmOpHelper)
    (s : EmitState) : Except EmitState EmitState :=
  runImmLoopFuel body (h.immUpperBound - h.immValue).toNat h s

/-- Embeds the operand-register extraction switch of `CodeGen::genHWIntrinsic`
(the `switch (intrin.numOperands)` with fall-through): reads up to three
operand registers positionally, asserting the operand nodes are present and,
for arity 0, that the oracle arity matches; `none` is a fired assertion or
`unreached()`. -/
def extractOperandRegs (node : GenTreeHWIntrinsic) : Option (Reg × Reg × Reg) :=
  match node.numOperands with
  | 3 =>
    match node.op3, node.op2, node.op1 with
    | some o3, some o2, some o1 => some (o1.GetRegNum, o2.GetRegNum, o3.GetRegNum)
    | _, _, _ => none
  | 2 =>
    match node.op2, node.op1 with
    | some o2, some o1 => some (o1.GetRegNum, o2.GetRegNum, .NA)
    | _, _ => none
  | 1 =>
    match node.op1 with
    | some o1 => some (o1.GetRegNum, .NA, .NA)
    | _ => none
  | 0 => if node.lookupNumArgs = 0 then some (.NA, .NA, .NA) else none
  | _ => none

/-- Embeds the operand-size / lane-shape computation of
`CodeGen::genHWIntrinsic`: scalar-like categories use the actual type size
with no shape qualifier; the others use the SIMD size in bytes and the
`genGetSimdInsOpt` oracle answer, normalizing `1D` to no qualifier for the
simple-SIMD category. -/
def computeEmitSizeOpt (node : GenTreeHWIntrinsic) : Nat × insOpts :=
  if node.category = .HW_Category_SIMDScalar ∨ node.category = .HW_Category_Scalar then
    (emitActualTypeSize node.baseType, .INS_OPTS_NONE)
  else
    let emitSize := node.simdSize
    let opt := node.simdInsOpt
    let opt := if opt = .INS_OPTS_1D ∧ node.category = .HW_Category_SimpleSIMD then
      insOpts.INS_OPTS_NONE else opt
    (emitSize, opt)

/-- Embeds the table-driven arm of `CodeGen::genHWIntrinsic`: the opcode
comes from the `lookupIns` oracle and the operand pattern follows from the
arity and the RMW flag; RMW aliasing assertions and `unreached()` are the
`Except.error` case (carrying the untouched emitter state, so a fired
assertion emits nothing). -/
def genTableDriven (node : GenTreeHWIntrinsic) (targetReg op1Reg op2Reg op3Reg : Reg)
    (emitSize : Nat) (opt : insOpts) (s : EmitState) : Except EmitState EmitState :=
  let ins := instruction.lookup node.id node.baseType
  match node.numOperands with
  | 1 => .ok (emit (.insRR ins emitSize targetReg op1Reg opt) s)
  | 2 =>
    if node.isRMW then
      if targetReg = op2Reg then
        .error s
      else
        let s1 := if targetReg ≠ op1Reg then
          emit (.insRR .INS_mov emitSize targetReg op1Reg .INS_OPTS_NONE) s else s
        .ok (emit (.insRR ins emitSize targetReg op2Reg opt) s1)
    else
      .ok (emit (.insRRR ins emitSize targetReg op1Reg op2Reg opt) s)
  | 3 =>
    if node.isRMW = false then
      .error s
    else if targetReg = op2Reg then
      .error s
    else if targetReg = op3Reg then
      .error s
    else
      let s1 := if targetReg ≠ op1Reg then
        emit (.insRR .INS_mov emitSize targetReg op1Reg .INS_OPTS_NONE) s else s
      .ok (emit (.insRRR ins emitSize targetReg op2Reg op3Reg opt) s1)
  | _ => .error s

/-- Embeds the instruction-selection switch preceding the special-cased
dispatch in `CodeGen::genHWIntrinsic`: the CRC32 operations pick the 32- or
64-bit variant by base type (asserting `TYP_LONG` for the 64-bit ones,
the `none` case), every other operation takes the `lookupIns` oracle answer. -/
def selectSpecialIns (node : GenTreeHWIntrinsic) : Option instruction :=
  match node.id with
  | .NI_Crc32_ComputeCrc32 =>
    some (if node.baseType = .TYP_INT then .INS_crc32w
      else .lookup node.id node.baseType)
  | .NI_Crc32_ComputeCrc32C =>
    some (if node.baseType = .TYP_INT then .INS_crc32cw
      else .lookup node.id node.baseType)
  | .NI_Crc32_Arm64_ComputeCrc32 =>
    if node.baseType = .TYP_LONG then some .INS_crc32x else none
  | .NI_Crc32_Arm64_ComputeCrc32C =>
    if node.baseType = .TYP_LONG then some .INS_crc32cx else none
  | _ => some (.lookup node.id node.baseType)

/-- The lane-shape qualifier the extract-vector-slice cases overwrite `opt`
with: `8B` for the 64-bit variant, `16B` for the 128-bit one. -/
def extractVecOpt (id : NamedIntrinsic) : insOpts :=
  if id = .NI_AdvSimd_ExtractVector64 then .INS_OPTS_8B else .INS_OPTS_16B

/-- Embeds the special-cased (non-table-driven) dispatch switch of
`CodeGen::genHWIntrinsic` over the intrinsic identifier.  Assertions and
`unreached()` are the `Except.error` case, carrying the emitter state at the
point the assertion fired. -/
def genSpecial (node : GenTreeHWIntrinsic) (ins : instruction)
    (targetReg op1Reg op2Reg op3Reg : Reg) (emitSize : Nat) (opt : insOpts)
    (s : EmitState) : Except EmitState EmitState :=
  match node.id with
  | .NI_AdvSimd_BitwiseSelect =>
    if node.isRMW then
      .error s
    else if targetReg = op1Reg then
      .ok (emit (.insRRR .INS_bsl emitSize targetReg op2Reg op3Reg opt) s)
    else if targetReg = op2Reg then
      .ok (emit (.insRRR .INS_bif emitSize targetReg op3Reg op1Reg opt) s)
    else if targetReg = op3Reg then
      .ok (emit (.insRRR .INS_bit emitSize targetReg op2Reg op1Reg opt) s)
    else
      let s1 := emit (.insRR .INS_mov emitSize targetReg op1Reg .INS_OPTS_NONE) s
      .ok (emit (.insRRR .INS_bsl emitSize targetReg op2Reg op3Reg opt) s1)
  | .NI_Crc32_ComputeCrc32 =>
    .ok (emit (.insRRR ins emitSize targetReg op1Reg op2Reg opt) s)
  | .NI_Crc32_ComputeCrc32C =>
    .ok (emit (.insRRR ins emitSize targetReg op1Reg op2Reg opt) s)
  | .NI_Crc32_Arm64_ComputeCrc32 =>
    .ok (emit (.insRRR ins emitSize targetReg op1Reg op2Reg opt) s)
  | .NI_Crc32_Arm64_ComputeCrc32C =>
    .ok (emit (.insRRR ins emitSize targetReg op1Reg op2Reg opt) s)
  | .NI_AdvSimd_CompareLessThan =>
    .ok (emit (.insRRR ins emitSize targetReg op2Reg op1Reg opt) s)
  | .NI_AdvSimd_CompareLessThanOrEqual =>
    .ok (emit (.insRRR ins emitSize targetReg op2Reg op1Reg opt) s)
  | .NI_AdvSimd_Arm64_CompareLessThan =>
    .ok (emit (.insRRR ins emitSize targetReg op2Reg op1Reg opt) s)
  | .NI_AdvSimd_Arm64_CompareLessThanScalar =>
    .ok (emit (.insRRR ins emitSize targetReg op2Reg op1Reg opt) s)
  | .NI_AdvSimd_Arm64_CompareLessThanOrEqual =>
    .ok (emit (.insRRR ins emitSize targetReg op2Reg op1Reg opt) s)
  | .NI_AdvSimd_Arm64_CompareLessThanOrEqualScalar =>
    .ok (emit (.insRRR ins emitSize targetReg op2Reg op1Reg opt) s)
  | .NI_AdvSimd_AbsoluteCompareLessThan =>
    .ok (emit (.insRRR ins emitSize targetReg op2Reg op1Reg opt) s)
  | .NI_AdvSimd_AbsoluteCompareLessThanOrEqual =>
    .ok (emit (.insRRR ins emitSize targetReg op2Reg op1Reg opt) s)
  | .NI_AdvSimd_Arm64_AbsoluteCompareLessThan =>
    .ok (emit (.insRRR ins emitSize targetReg op2Reg op1Reg opt) s)
  | .NI_AdvSimd_Arm64_AbsoluteCompareLessThanScalar =>
    .ok (emit (.insRRR ins emitSize targetReg op2Reg op1Reg opt) s)
  | .NI_AdvSimd_Arm64_AbsoluteCompareLessThanOrEqual =>
    .ok (emit (.insRRR ins emitSize targetReg op2Reg op1Reg opt) s)
  | .NI_AdvSimd_Arm64_AbsoluteCompareLessThanOrEqualScalar =>
    .ok (emit (.insRRR ins emitSize targetReg op2Reg op1Reg opt) s)
  | .NI_AdvSimd_FusedMultiplyAddScalar =>
    if opt = .INS_OPTS_NONE then
      .ok (emit (.insRRRR ins emitSize targetReg op2Reg op3Reg op1Reg) s)
    else .error s
  | .NI_AdvSimd_FusedMultiplyAddNegatedScalar =>
    if opt = .INS_OPTS_NONE then
      .ok (emit (.insRRRR ins emitSize targetReg op2Reg op3Reg op1Reg) s)
    else .error s
  | .NI_AdvSimd_FusedMultiplySubtractNegatedScalar =>
    if opt = .INS_OPTS_NONE then
      .ok (emit (.insRRRR ins emitSize targetReg op2Reg op3Reg op1Reg) s)
    else .error s
  | .NI_AdvSimd_FusedMultiplySubtractScalar =>
    if opt = .INS_OPTS_NONE then
      .ok (emit (.insRRRR ins emitSize targetReg op2Reg op3Reg op1Reg) s)
    else .error s
  | .NI_AdvSimd_Store =>
    .ok (emit (.insRR ins emitSize op2Reg op1Reg opt) s)
  | .NI_AdvSimd_Extract =>
    match node.op2 with
    | none => .error s
    | some immOp =>
      match mkImmOpHelper node immOp s with
      | .error s' => .error s'
      | .ok (helper, s1) =>
        runImmLoop (fun elementIndex st =>
            emit (.insRRI ins (emitTypeSize node.baseType) targetReg op1Reg
              elementIndex .INS_OPTS_NONE) st)
          helper (EmitBegin helper s1)
  | .NI_AdvSimd_ExtractVector64 =>
    match node.op3 with
    | none => .error s
    | some immOp =>
      match mkImmOpHelper node immOp s with
      | .error s' => .error s'
      | .ok (helper, s1) =>
        runImmLoop (fun elementIndex st =>
            emit (.insRRRI ins emitSize targetReg op1Reg op2Reg
              ((genTypeSize node.baseType : Int) * elementIndex)
              (extractVecOpt node.id)) st)
          helper (EmitBegin helper s1)
  | .NI_AdvSimd_ExtractVector128 =>
    match node.op3 with
    | none => .error s
    | some immOp =>
      match mkImmOpHelper node immOp s with
      | .error s' => .error s'
      | .ok (helper, s1) =>
        runImmLoop (fun elementIndex st =>
            emit (.insRRRI ins emitSize targetReg op1Reg op2Reg
              ((genTypeSize node.baseType : Int) * elementIndex)
              (extractVecOpt node.id)) st)
          helper (EmitBegin helper s1)
  | .NI_AdvSimd_Insert =>
    if node.isRMW = false then
      .error s
    else if targetReg = op3Reg then
      .error s
    else
      let s1 := if targetReg ≠ op1Reg then
        emit (.insRR .INS_mov emitSize targetReg op1Reg .INS_OPTS_NONE) s else s
      match node.op3 with
      | none => .error s1
      | some op3t =>
        if op3t.isContainedFltOrDblImmed then
          match node.op2 with
          | none => .error s1
          | some op2t =>
            if op2t.isContainedIntOrIImmed then
              if op2t.intConValue = 0 then
                .ok (emit (.insRF .INS_fmov (emitTypeSize node.baseType) targetReg
                  op3t.dblConBits .INS_OPTS_NONE) s1)
              else .error s1
            else .error s1
        else
          match node.op2 with
          | none => .error s1
          | some immOp =>
            match mkImmOpHelper node immOp s1 with
            | .error s2 => .error s2
            | .ok (helper, s2) =>
              if varTypeIsFloating node.baseType then
                runImmLoop (fun elementIndex st =>
                    emit (.insRRII ins (emitTypeSize node.baseType) targetReg op3Reg
                      elementIndex 0 .INS_OPTS_NONE) st)
                  helper (EmitBegin helper s2)
              else
                runImmLoop (fun elementIndex st =>
                    emit (.insRRI ins (emitTypeSize node.baseType) targetReg op3Reg
                      elementIndex .INS_OPTS_NONE) st)
                  helper (EmitBegin helper s2)
  | .NI_Vector64_CreateScalarUnsafe =>
    match node.op1 with
    | none => .error s
    | some op1t =>
      if op1t.isContainedFltOrDblImmed then
        .ok (emit (.insRF ins (emitTypeSize node.baseType) targetReg
          op1t.dblConBits .INS_OPTS_NONE) s)
      else if varTypeIsFloating node.baseType then
        .ok (if targetReg ≠ op1Reg then
          emit (.insRR ins (emitTypeSize node.baseType) targetReg op1Reg
            .INS_OPTS_NONE) s
          else s)
      else if op1t.isContainedIntOrIImmed then
        .ok (emit (.insRI .INS_movi emitSize targetReg op1t.intConValue opt) s)
      else
        .ok (emit (.insRRI ins (emitTypeSize node.baseType) targetReg op1Reg 0
          .INS_OPTS_NONE) s)
  | .NI_Vector128_CreateScalarUnsafe =>
    match node.op1 with
    | none => .error s
    | some op1t =>
      if op1t.isContainedFltOrDblImmed then
        .ok (emit (.insRF ins (emitTypeSize node.baseType) targetReg
          op1t.dblConBits .INS_OPTS_NONE) s)
      else if varTypeIsFloating node.baseType then
        .ok (if targetReg ≠ op1Reg then
          emit (.insRR ins (emitTypeSize node.baseType) targetReg op1Reg
            .INS_OPTS_NONE) s
          else s)
      else if op1t.isContainedIntOrIImmed then
        .ok (emit (.insRI .INS_movi emitSize targetReg op1t.intConValue opt) s)
      else
        .ok (emit (.insRRI ins (emitTypeSize node.baseType) targetReg op1Reg 0
          .INS_OPTS_NONE) s)
  | .NI_Vector64_get_Zero =>
    .ok (emit (.insRI ins emitSize targetReg 0 .INS_OPTS_2S) s)
  | .NI_Vector64_get_AllBitsSet =>
    .ok (emit (.insRI ins emitSize targetReg 0 .INS_OPTS_2S) s)
  | .NI_Vector128_get_Zero =>
    .ok (emit (.insRI ins emitSize targetReg 0 .INS_OPTS_4S) s)
  | .NI_Vector128_get_AllBitsSet =>
    .ok (emit (.insRI ins emitSize targetReg 0 .INS_OPTS_4S) s)
  | _ => .error s

/-- Embeds `CodeGen::genHWIntrinsic`: extracts the operand registers, derives
the operand size and lane-shape qualifier, and dispatches to the table-driven
or the special-cased path.  `genConsumeHWIntrinsicOperands` and
`genProduceReg` touch no instruction stream and are not modelled.  The result
is the emitter state extended with the node's instructions, or the state at a
fired assertion. -/
def genHWIntrinsic (node : GenTreeHWIntrinsic) (s : EmitState) :
    Except EmitState EmitState :=
  match extractOperandRegs node with
  | none => .error s
  | some (op1Reg, op2Reg, op3Reg) =>
    let sizeOpt := computeEmitSizeOpt node
    if node.tableDriven then
      genTableDriven node node.targetReg op1Reg op2Reg op3Reg sizeOpt.1 sizeOpt.2 s
    else
      match selectSpecialIns node with
      | none => .error s
      | some ins =>
        genSpecial node ins node.targetReg op1Reg op2Reg op3Reg sizeOpt.1 sizeOpt.2 s

deriving instance DecidableEq for Except

/-- Reference description of the event suffix one full case loop appends
after `EmitBegin`, mirroring the decision structure of `EmitCaseEnd`:
per remaining case, the body's event, then (non-constant operand only)
either the end-label definition (last case) or `b endLabel` followed by the
nonzero-case label (zero-or-one mode) or a fresh per-case label (jump-table
mode, consuming one temporary label number). -/
def loopTrace (e : Int → Event) (isConst zeroOne : Bool) (endL nzL : Nat) :
    Nat → Int → Nat → List Event
  | 0, _, _ => []
  | n + 1, v, nl =>
    e v ::
      (if isConst then loopTrace e isConst zeroOne endL nzL n (v + 1) nl
       else if n = 0 then
         Event.defineLabel endL :: loopTrace e isConst zeroOne endL nzL n (v + 1) nl
       else
         Event.insJ .INS_b endL ::
           (if zeroOne then
              Event.defineLabel nzL :: loopTrace e isConst zeroOne endL nzL n (v + 1) nl
            else
              Event.defineLabel nl :: loopTrace e isConst zeroOne endL nzL n (v + 1) (nl + 1)))

/-- Number of temporary labels the case loop allocates: one per non-last
case in jump-table mode, none otherwise. -/
def loopLabels (isConst zeroOne : Bool) : Nat → Nat
  | 0 => 0
  | n + 1 =>
    (if isConst then 0 else if n = 0 then 0 else if zeroOne then 0 else 1) +
      loopLabels isConst zeroOne n

/-- The dispatch state built for a contained integer-constant immediate:
current value is the constant, the bound is the constant plus one, no labels
or registers are allocated. -/
def constImmHelper (c : Int) : HWIntrinsicImmOpHelper :=
  { endLabel := none, nonZeroLabel := none, branchTargetReg := .NA,
    nonConstImmReg := .NA, immValue := c, immUpperBound := c + 1 }

/-- The fixed ARM64 instruction width in bytes (from the source comment in
`EmitBegin`: an arm64 instruction is 4 bytes). -/
def arm64InstructionSize : Nat := 4

/-- The identifiers of the less-than / less-than-or-equal comparison families
(including the absolute-compare and scalar variants), exactly the case labels
the source groups onto the reversed-operand emission. -/
def isLessThanFamily (id : NamedIntrinsic) : Bool :=
  match id with
  | .NI_AdvSimd_CompareLessThan => true
  | .NI_AdvSimd_CompareLessThanOrEqual => true
  | .NI_AdvSimd_Arm64_CompareLessThan => true
  | .NI_AdvSimd_Arm64_CompareLessThanScalar => true
  | .NI_AdvSimd_Arm64_CompareLessThanOrEqual => true
  | .NI_AdvSimd_Arm64_CompareLessThanOrEqualScalar => true
  | .NI_AdvSimd_AbsoluteCompareLessThan => true
  | .NI_AdvSimd_AbsoluteCompareLessThanOrEqual => true
  | .NI_AdvSimd_Arm64_AbsoluteCompareLessThan => true
  | .NI_AdvSimd_Arm64_AbsoluteCompareLessThanScalar => true
  | .NI_AdvSimd_Arm64_AbsoluteCompareLessThanOrEqual => true
  | .NI_AdvSimd_Arm64_AbsoluteCompareLessThanOrEqualScalar => true
  | _ => false

/-- Recognizes a two-register-plus-immediate case-body instruction (the shape
every per-case body of the `Extract` and integer `Insert` loops emits). -/
def isCaseRRI : Event → Bool
  | .insRRI _ _ _ _ _ _ => true
  | _ => false

/-- Recognizes an unconditional branch to a label (`emitIns_J`). -/
def isBranchB : Event → Bool
  | .insJ _ _ => true
  | _ => false

/-- Recognizes a case-body instruction of the extract-vector-slice loop:
three registers plus immediate, with the given opcode (which separates the
case bodies from the jump-table `add`). -/
def isCaseRRRI (i : instruction) : Event → Bool
  | .insRRRI j _ _ _ _ _ _ => j == i
  | _ => false

/-- A sample intrinsic node for concrete witnesses: a table-driven binary
operation with a lane-index oracle bound of 4 and one scratch register. -/
def baseNode : GenTreeHWIntrinsic :=
  { id := .other 0, category := .HW_Category_SimpleSIMD, baseType := .TYP_INT,
    simdSize := 16, numOperands := 2, op1 := some (.reg 1), op2 := some (.reg 2),
    op3 := none, targetReg := .R 0, isRMW := false, tableDriven := true,
    lookupNumArgs := 2, immUpperBound := 4, generatesMultipleIns := false,
    singleTempReg := .R 9, simdInsOpt := .INS_OPTS_4S }

/-- The dispatch state the constructor builds in jump-table mode for
`baseNode` with the immediate held in register 5, starting from the empty
emitter state. -/
def jtHelper : HWIntrinsicImmOpHelper :=
  { endLabel := some 0, nonZeroLabel := none, branchTargetReg := .R 9,
    nonConstImmReg := .R 5, immValue := 0, immUpperBound := 4 }

/-- A sample 2-operand table-driven RMW node with target distinct from both
operand registers. -/
def rmw2Node : GenTreeHWIntrinsic :=
  { baseNode with isRMW := true, targetReg := .R 7 }

/-- A sample 3-operand table-driven RMW node whose target aliases the first
source register. -/
def rmw3Node : GenTreeHWIntrinsic :=
  { baseNode with
    isRMW := true, targetReg := .R 1, numOperands := 3, op3 := some (.reg 3) }

/-- A sample less-than comparison node. -/
def ltNode : GenTreeHWIntrinsic :=
  { baseNode with
    id := .NI_AdvSimd_CompareLessThan, tableDriven := false }

/-- A sample bitwise-select node whose target aliases operand 1 (the spec's
end-to-end example: dst = R0, operands R0, R1, R2). -/
def bslAlias1Node : GenTreeHWIntrinsic :=
  { baseNode with
    id := .NI_AdvSimd_BitwiseSelect, tableDriven := false, numOperands := 3,
    op1 := some (.reg 0), op2 := some (.reg 1), op3 := some (.reg 2) }

/-- A sample bitwise-select node whose target aliases no operand (the spec's
end-to-end example with operand 1 moved to R3). -/
def bslNoAliasNode : GenTreeHWIntrinsic :=
  { baseNode with
    id := .NI_AdvSimd_BitwiseSelect, tableDriven := false, numOperands := 3,
    op1 := some (.reg 3), op2 := some (.reg 1), op3 := some (.reg 2) }

/-- A sample extract-vector-slice node with a contained constant lane index. -/
def extractVecConstNode : GenTreeHWIntrinsic :=
  { baseNode with
    id := .NI_AdvSimd_ExtractVector128, tableDriven := false, numOperands := 3,
    op3 := some (.intCon 2) }

/-- A sample extract-vector-slice node with the lane index in register 5. -/
def extractVecRegNode : GenTreeHWIntrinsic :=
  { baseNode with
    id := .NI_AdvSimd_ExtractVector128, tableDriven := false, numOperands := 3,
    op3 := some (.reg 5) }

/-- A sample 2-operand table-driven RMW node whose target aliases the pure
source operand (register 2). -/
def rmw2AliasNode : GenTreeHWIntrinsic :=
  { baseNode with isRMW := true, targetReg := .R 2 }

/-- A sample 3-operand table-driven RMW node whose target aliases the second
pure source operand (register 3). -/
def rmw3AliasNode : GenTreeHWIntrinsic :=
  { baseNode with
    isRMW := true, targetReg := .R 3, numOperands := 3, op3 := some (.reg 3) }

/-- A sample insert-lane node with a contained floating constant value and a
contained zero lane index. -/
def insertFltNode : GenTreeHWIntrinsic :=
  { baseNode with
    id := .NI_AdvSimd_Insert, tableDriven := false, isRMW := true,
    numOperands := 3, baseType := .TYP_DOUBLE, op1 := some (.reg 3),
    op2 := some (.intCon 0), op3 := some (.dblCon 77) }

/-- The insert-lane sample with a nonzero contained lane index (the
assertion-violating shape). -/
def insertFltBadNode : GenTreeHWIntrinsic :=
  { insertFltNode with op2 := some (.intCon 1) }

/-- The case loop with exact fuel produces precisely the `loopTrace` suffix
and allocates precisely `loopLabels` temporary labels. -/
theorem runImmLoopFuel_spec (e : Int → Event) (n : Nat) :
    ∀ (h : HWIntrinsicImmOpHelper) (s : EmitState),
      h.immUpperBound = h.immValue + n →
      runImmLoopFuel (fun v st => emit (e v) st) n h s =
        .ok { trace := s.trace ++ loopTrace e (!h.NonConstImmOp) h.TestImmOpZeroOrOne
                 (h.endLabel.getD 0) (h.nonZeroLabel.getD 0) n h.immValue s.nextLabel,
              nextLabel := s.nextLabel + loopLabels (!h.NonConstImmOp) h.TestImmOpZeroOrOne n } := by
  induction n with
  | zero =>
    intro h s hub
    have hdone : h.Done = true := by
      simp only [HWIntrinsicImmOpHelper.Done, decide_eq_true_eq]
      omega
    simp [runImmLoopFuel, hdone, loopTrace, loopLabels]
  | succ m ih =>
    intro h s hub
    have hdone : h.Done = false := by
      simp only [HWIntrinsicImmOpHelper.Done, decide_eq_false_iff_not]
      omega
    have hzo : (HWIntrinsicImmOpHelper.mk h.endLabel h.nonZeroLabel h.branchTargetReg
        h.nonConstImmReg (h.immValue + 1) h.immUpperBound).TestImmOpZeroOrOne =
        h.TestImmOpZeroOrOne := by
      simp [HWIntrinsicImmOpHelper.TestImmOpZeroOrOne, HWIntrinsicImmOpHelper.NonConstImmOp]
    have hnc : (HWIntrinsicImmOpHelper.mk h.endLabel h.nonZeroLabel h.branchTargetReg
        h.nonConstImmReg (h.immValue + 1) h.immUpperBound).NonConstImmOp =
        h.NonConstImmOp := by
      simp [HWIntrinsicImmOpHelper.NonConstImmOp]
    cases hc : h.NonConstImmOp with
    | false =>
      have hce : EmitCaseEnd h (emit (e h.immValue) s) =
          .ok ({ h with immValue := h.immValue + 1 }, emit (e h.immValue) s) := by
        simp [EmitCaseEnd, hdone, hc]
      have ihh := ih { h with immValue := h.immValue + 1 } (emit (e h.immValue) s)
        (by simp only; omega)
      simp only [runImmLoopFuel, hdone, Bool.false_eq_true, if_false,
        HWIntrinsicImmOpHelper.ImmValue, hce]
      simp only [hzo, hnc, hc, Bool.not_false] at ihh
      rw [ihh]
      simp [emit, loopTrace, loopLabels, hc, List.append_assoc]
    | true =>
      by_cases hm : m = 0
      · subst hm
        have hlast : h.immValue + 1 = h.immUpperBound := by omega
        have hce : EmitCaseEnd h (emit (e h.immValue) s) =
            .ok ({ h with immValue := h.immValue + 1 },
              genDefineInlineTempLabel (h.endLabel.getD 0) (emit (e h.immValue) s)) := by
          simp [EmitCaseEnd, hdone, hc, hlast]
        have hdone2 : ({ h with immValue := h.immValue + 1 } :
            HWIntrinsicImmOpHelper).Done = true := by
          simp only [HWIntrinsicImmOpHelper.Done, decide_eq_true_eq]
          omega
        simp only [runImmLoopFuel, hdone, Bool.false_eq_true, if_false,
          HWIntrinsicImmOpHelper.ImmValue, hce, hdone2, if_true]
        simp [genDefineInlineTempLabel, emit, loopTrace, loopLabels, hc, hdone2]
      · have hnotlast : ¬(h.immValue + 1 = h.immUpperBound) := by omega
        cases hz : h.TestImmOpZeroOrOne with
        | true =>
          have hce : EmitCaseEnd h (emit (e h.immValue) s) =
              .ok ({ h with immValue := h.immValue + 1 },
                genDefineInlineTempLabel (h.nonZeroLabel.getD 0)
                  (emit (.insJ .INS_b (h.endLabel.getD 0)) (emit (e h.immValue) s))) := by
            simp [EmitCaseEnd, hdone, hc, hnotlast, hz]
          have ihh := ih { h with immValue := h.immValue + 1 }
            (genDefineInlineTempLabel (h.nonZeroLabel.getD 0)
              (emit (.insJ .INS_b (h.endLabel.getD 0)) (emit (e h.immValue) s)))
            (by simp only; omega)
          simp only [runImmLoopFuel, hdone, Bool.false_eq_true, if_false,
            HWIntrinsicImmOpHelper.ImmValue, hce]
          simp only [hzo, hnc, hc, hz, Bool.not_true] at ihh
          rw [ihh]
          simp [genDefineInlineTempLabel, emit, loopTrace, loopLabels, hc, hz, hm,
            List.append_assoc]
        | false =>
          have hce : EmitCaseEnd h (emit (e h.immValue) s) =
              .ok ({ h with immValue := h.immValue + 1 },
                genDefineInlineTempLabel s.nextLabel
                  { trace := s.trace ++ [e h.immValue, .insJ .INS_b (h.endLabel.getD 0)],
                    nextLabel := s.nextLabel + 1 }) := by
            simp [EmitCaseEnd, hdone, hc, hnotlast, hz, genCreateTempLabel, emit]
          have ihh := ih { h with immValue := h.immValue + 1 }
            (genDefineInlineTempLabel s.nextLabel
              { trace := s.trace ++ [e h.immValue, .insJ .INS_b (h.endLabel.getD 0)],
                nextLabel := s.nextLabel + 1 })
            (by simp only; omega)
          simp only [runImmLoopFuel, hdone, Bool.false_eq_true, if_false,
            HWIntrinsicImmOpHelper.ImmValue, hce]
          simp only [hzo, hnc, hc, hz, Bool.not_true] at ihh
          rw [ihh]
          simp only [genDefineInlineTempLabel, emit, loopTrace, loopLabels, hc, hz, hm,
            if_false, Bool.not_true, Except.ok.injEq, EmitState.mk.injEq]
          constructor
          · simp [List.append_assoc, hm]
          · simp only [Bool.false_eq_true, if_false]
            omega

/-- The case loop (entered with exact remaining count `n`) produces the
`loopTrace` suffix and allocates `loopLabels` temporary labels. -/
theorem runImmLoop_spec (e : Int → Event) (n : Nat) (h : HWIntrinsicImmOpHelper)
    (s : EmitState) (hub : h.immUpperBound = h.immValue + n) :
    runImmLoop (fun v st => emit (e v) st) h s =
      .ok { trace := s.trace ++ loopTrace e (!h.NonConstImmOp) h.TestImmOpZeroOrOne
               (h.endLabel.getD 0) (h.nonZeroLabel.getD 0) n h.immValue s.nextLabel,
            nextLabel := s.nextLabel + loopLabels (!h.NonConstImmOp) h.TestImmOpZeroOrOne n } := by
  have hfuel : (h.immUpperBound - h.immValue).toNat = n := by omega
  rw [runImmLoop, hfuel]
  exact runImmLoopFuel_spec e n h s hub

/-- Splitting off the head of a shifted range map. -/
theorem range_map_shift (e : Int → Event) (m : Nat) (v : Int) :
    (List.range (m + 1)).map (fun k : Nat => e (v + k)) =
      e v :: (List.range m).map (fun k : Nat => e (v + 1 + k)) := by
  rw [List.range_succ_eq_map, List.map_cons, List.map_map]
  refine congrArg₂ _ (by simp) ?_
  apply List.map_congr_left
  intro k _
  simp only [Function.comp_apply]
  congr 1
  push_cast
  ring

/-- The sub-sequence of body events inside one case loop: one per immediate
value from the initial value up to the bound, in increasing order. -/
theorem loopTrace_filter (p : Event → Bool) (e : Int → Event)
    (hpe : ∀ v, p (e v) = true)
    (hpb : ∀ i l, p (Event.insJ i l) = false)
    (hpd : ∀ l, p (Event.defineLabel l) = false) :
    ∀ (n : Nat) (isConst zeroOne : Bool) (endL nzL : Nat) (v : Int) (nl : Nat),
      (loopTrace e isConst zeroOne endL nzL n v nl).filter p =
        (List.range n).map (fun k : Nat => e (v + k)) := by
  intro n
  induction n with
  | zero =>
    intro isConst zeroOne endL nzL v nl
    simp [loopTrace]
  | succ m ih =>
    intro isConst zeroOne endL nzL v nl
    rw [range_map_shift]
    cases isConst <;> cases zeroOne <;> by_cases hm : m = 0 <;>
      simp [loopTrace, hm, hpe, hpb, hpd, ih]

/-- The number of body events inside one case loop equals the number of
remaining cases. -/
theorem loopTrace_countP (p : Event → Bool) (e : Int → Event)
    (hpe : ∀ v, p (e v) = true)
    (hpb : ∀ i l, p (Event.insJ i l) = false)
    (hpd : ∀ l, p (Event.defineLabel l) = false)
    (n : Nat) (isConst zeroOne : Bool) (endL nzL : Nat) (v : Int) (nl : Nat) :
    (loopTrace e isConst zeroOne endL nzL n v nl).countP p = n := by
  rw [List.countP_eq_length_filter, loopTrace_filter p e hpe hpb hpd]
  simp

/-- The number of unconditional end-label branches inside one case loop:
one per non-last case for a non-constant operand, none for a constant one. -/
theorem loopTrace_countB (p : Event → Bool) (e : Int → Event)
    (hpe : ∀ v, p (e v) = false)
    (hpb : ∀ i l, p (Event.insJ i l) = true)
    (hpd : ∀ l, p (Event.defineLabel l) = false) :
    ∀ (n : Nat) (isConst zeroOne : Bool) (endL nzL : Nat) (v : Int) (nl : Nat),
      (loopTrace e isConst zeroOne endL nzL n v nl).countP p =
        if isConst then 0 else n - 1 := by
  intro n
  induction n with
  | zero =>
    intro isConst zeroOne endL nzL v nl
    simp [loopTrace]
  | succ m ih =>
    intro isConst zeroOne endL nzL v nl
    cases isConst <;> cases zeroOne <;> by_cases hm : m = 0 <;>
      simp [loopTrace, hm, hpe, hpb, hpd, ih] <;> omega

/-- With a constant immediate operand, `EmitBegin` emits nothing. -/
theorem EmitBegin_const (h : HWIntrinsicImmOpHelper) (s : EmitState)
    (hnc : h.NonConstImmOp = false) : EmitBegin h s = s := by
  simp [EmitBegin, hnc]

/-- With the helper built on a contained constant, `EmitBegin` emits
nothing. -/
theorem EmitBegin_constImmHelper (c : Int) (s : EmitState) :
    EmitBegin (constImmHelper c) s = s :=
  EmitBegin_const _ _ rfl

/-- In the zero-or-one mode, `EmitBegin` emits exactly one `cbnz` to the
nonzero-case label and then defines the begin label. -/
theorem EmitBegin_zeroOne (h : HWIntrinsicImmOpHelper) (s : EmitState)
    (hz : h.TestImmOpZeroOrOne = true) :
    EmitBegin h s =
      { trace := s.trace ++ [.insJR .INS_cbnz 4 (h.nonZeroLabel.getD 0) h.nonConstImmReg,
          .defineLabel s.nextLabel],
        nextLabel := s.nextLabel + 1 } := by
  have hnc : h.NonConstImmOp = true := by
    have := hz
    simp only [HWIntrinsicImmOpHelper.TestImmOpZeroOrOne, Bool.and_eq_true] at this
    exact this.1
  simp [EmitBegin, hnc, hz, genCreateTempLabel, genDefineInlineTempLabel, emit]

/-- In the jump-table mode, `EmitBegin` emits the address computation
(`adr`, `add` with left-shift 3, `br`) and then defines the begin label
(the label the `adr` references) right after the dispatch block. -/
theorem EmitBegin_jumpTable (h : HWIntrinsicImmOpHelper) (s : EmitState)
    (hnc : h.NonConstImmOp = true) (hz : h.TestImmOpZeroOrOne = false) :
    EmitBegin h s =
      { trace := s.trace ++ [.insRL .INS_adr 8 s.nextLabel h.branchTargetReg,
          .insRRRI .INS_add 8 h.branchTargetReg h.branchTargetReg h.nonConstImmReg 3
            .INS_OPTS_LSL,
          .insR .INS_br 8 h.branchTargetReg, .defineLabel s.nextLabel],
        nextLabel := s.nextLabel + 1 } := by
  simp [EmitBegin, hnc, hz, genCreateTempLabel, genDefineInlineTempLabel, emit]

/-- Constructing the helper on a contained integer constant allocates
nothing and records the constant and the constant plus one. -/
theorem mkImmOpHelper_const (node : GenTreeHWIntrinsic) (c : Int) (s : EmitState) :
    mkImmOpHelper node (GenTree.intCon c) s = .ok (constImmHelper c, s) := by
  simp [mkImmOpHelper, GenTree.isContainedIntOrIImmed, GenTree.intConValue, constImmHelper]

/-- Constructing the helper on a register operand with bound 2 allocates the
nonzero-case label and then the end label. -/
theorem mkImmOpHelper_reg_zeroOne (node : GenTreeHWIntrinsic) (r : Nat) (s : EmitState)
    (hub : node.immUpperBound = 2) :
    mkImmOpHelper node (GenTree.reg r) s =
      .ok ({ endLabel := some (s.nextLabel + 1), nonZeroLabel := some s.nextLabel,
             branchTargetReg := .NA, nonConstImmReg := .R r, immValue := 0,
             immUpperBound := 2 }, { s with nextLabel := s.nextLabel + 2 }) := by
  simp [mkImmOpHelper, GenTree.isContainedIntOrIImmed, GenTree.GetRegNum, hub,
    genCreateTempLabel]

/-- Constructing the helper on a register operand with bound other than 2
(jump-table mode) asserts the single-instruction oracle flag, takes the
scratch register, and allocates only the end label. -/
theorem mkImmOpHelper_reg_jumpTable (node : GenTreeHWIntrinsic) (r : Nat) (s : EmitState)
    (hub : node.immUpperBound ≠ 2) (hgmi : node.generatesMultipleIns = false) :
    mkImmOpHelper node (GenTree.reg r) s =
      .ok ({ endLabel := some s.nextLabel, nonZeroLabel := none,
             branchTargetReg := node.singleTempReg, nonConstImmReg := .R r, immValue := 0,
             immUpperBound := node.immUpperBound }, { s with nextLabel := s.nextLabel + 1 }) := by
  simp [mkImmOpHelper, GenTree.isContainedIntOrIImmed, GenTree.GetRegNum, hub, hgmi,
    genCreateTempLabel]

/-- C3: for an immediate-dispatch helper built on a contained compile-time
integer constant, the helper emits nothing itself — `EmitBegin` leaves the
emitter state unchanged and `EmitCaseEnd` only increments the current value —
the loop body runs exactly once, at exactly the constant, the exclusive upper
bound is the constant plus one, and the whole construct appends exactly the
one instruction the body emits. -/
theorem c3_const_immediate_single_pass (node : GenTreeHWIntrinsic) (c : Int)
    (s : EmitState) (e : Int → Event) :
    mkImmOpHelper node (GenTree.intCon c) s = .ok (constImmHelper c, s) ∧
    (constImmHelper c).immValue = c ∧
    (constImmHelper c).immUpperBound = c + 1 ∧
    EmitBegin (constImmHelper c) s = s ∧
    EmitCaseEnd (constImmHelper c) s =
      .ok ({ constImmHelper c with immValue := c + 1 }, s) ∧
    runImmLoop (fun v st => emit (e v) st) (constImmHelper c) s =
      .ok { trace := s.trace ++ [e c], nextLabel := s.nextLabel } := by
  refine ⟨mkImmOpHelper_const node c s, rfl, rfl, EmitBegin_const _ _ rfl, ?_, ?_⟩
  · have hdone : (constImmHelper c).Done = false := by
      simp only [HWIntrinsicImmOpHelper.Done, decide_eq_false_iff_not, constImmHelper]
      omega
    have hnc : (constImmHelper c).NonConstImmOp = false := rfl
    simp [EmitCaseEnd, hdone, hnc]
    rfl
  · have hspec := runImmLoop_spec e 1 (constImmHelper c) s (by simp [constImmHelper])
    rw [hspec]
    simp [constImmHelper, HWIntrinsicImmOpHelper.NonConstImmOp,
      HWIntrinsicImmOpHelper.TestImmOpZeroOrOne, loopTrace, loopLabels]

/-- C4: for a non-constant immediate operand with exclusive upper bound 2,
the whole construct emits exactly one conditional branch-on-nonzero before
the cases, then exactly two case instructions; the nonzero-case label is
defined right after case 0's ending branch (immediately before the second
case) and the after-all-cases label after the last case. -/
theorem c4_zero_or_one_dispatch (node : GenTreeHWIntrinsic) (r : Nat) (s : EmitState)
    (e : Int → Event) (hub : node.immUpperBound = 2) :
    ∃ h s1,
      mkImmOpHelper node (GenTree.reg r) s = .ok (h, s1) ∧
      runImmLoop (fun v st => emit (e v) st) h (EmitBegin h s1) =
        .ok { trace := s.trace ++
                [.insJR .INS_cbnz 4 s.nextLabel (.R r), .defineLabel (s.nextLabel + 2),
                 e 0, .insJ .INS_b (s.nextLabel + 1), .defineLabel s.nextLabel, e 1,
                 .defineLabel (s.nextLabel + 1)],
              nextLabel := s.nextLabel + 3 } := by
  refine ⟨_, _, mkImmOpHelper_reg_zeroOne node r s hub, ?_⟩
  rw [EmitBegin_zeroOne _ _ (by
    simp [HWIntrinsicImmOpHelper.TestImmOpZeroOrOne, HWIntrinsicImmOpHelper.NonConstImmOp])]
  rw [runImmLoop_spec e 2 _ _ (by simp)]
  simp [HWIntrinsicImmOpHelper.NonConstImmOp, HWIntrinsicImmOpHelper.TestImmOpZeroOrOne,
    loopTrace, loopLabels]

/-- C4 witness: the protocol run at a concrete node, register and body. -/
theorem c4_zero_or_one_dispatch_witness :
    ∃ h s1,
      mkImmOpHelper { baseNode with immUpperBound := 2 } (GenTree.reg 5) emptyState =
        .ok (h, s1) ∧
      runImmLoop (fun v st => emit (.insRRI (.lookup (.other 0) .TYP_INT) 4 (.R 0) (.R 1)
          v .INS_OPTS_NONE) st) h (EmitBegin h s1) =
        .ok { trace :=
                [.insJR .INS_cbnz 4 0 (.R 5), .defineLabel 2,
                 .insRRI (.lookup (.other 0) .TYP_INT) 4 (.R 0) (.R 1) 0 .INS_OPTS_NONE,
                 .insJ .INS_b 1, .defineLabel 0,
                 .insRRI (.lookup (.other 0) .TYP_INT) 4 (.R 0) (.R 1) 1 .INS_OPTS_NONE,
                 .defineLabel 1],
              nextLabel := 3 } :=
  c4_zero_or_one_dispatch { baseNode with immUpperBound := 2 } 5 emptyState
    (fun v => .insRRI (.lookup (.other 0) .TYP_INT) 4 (.R 0) (.R 1) v .INS_OPTS_NONE)
    (by decide)

/-- C1 counterexample: at a concrete jump-table helper (bound 4, immediate in
register 5, scratch register 9), `EmitBegin` computes the branch target with
a left-shift of 3 — a byte offset of `value * 8` — whereas the claim's shift
`log2(instructionSize)` would require `2 ^ shift = arm64InstructionSize = 4`;
in fact `2 ^ 3 = 8 ≠ 4`. -/
theorem c1_counterexample_shift_is_three :
    mkImmOpHelper baseNode (GenTree.reg 5) emptyState =
      .ok (jtHelper, { trace := [], nextLabel := 1 }) ∧
    EmitBegin jtHelper { trace := [], nextLabel := 1 } =
      { trace := [.insRL .INS_adr 8 1 (.R 9),
          .insRRRI .INS_add 8 (.R 9) (.R 9) (.R 5) 3 .INS_OPTS_LSL,
          .insR .INS_br 8 (.R 9), .defineLabel 1],
        nextLabel := 2 } ∧
    ¬ (2 ^ 3 = arm64InstructionSize) := by
  refine ⟨by decide, by decide, by decide⟩

/-- C1 (amended): in jump-table mode `EmitBegin` emits `adr` to the label
defined right after the dispatch block, an `add` of the runtime value
left-shifted by 3 — i.e. a byte offset of `value * 2 * instructionWidth` —
and an indirect `br`, because every non-last case occupies one fixed-size
instruction slot plus one unconditional branch (two 4-byte instructions). -/
theorem c1_amended_jump_table_offset (h : HWIntrinsicImmOpHelper) (s : EmitState)
    (hnc : h.NonConstImmOp = true) (hz : h.TestImmOpZeroOrOne = false) :
    EmitBegin h s =
      { trace := s.trace ++ [.insRL .INS_adr 8 s.nextLabel h.branchTargetReg,
          .insRRRI .INS_add 8 h.branchTargetReg h.branchTargetReg h.nonConstImmReg 3
            .INS_OPTS_LSL,
          .insR .INS_br 8 h.branchTargetReg, .defineLabel s.nextLabel],
        nextLabel := s.nextLabel + 1 } ∧
    2 ^ 3 = 2 * arm64InstructionSize :=
  ⟨EmitBegin_jumpTable h s hnc hz, rfl⟩

/-- C1 witness: the amended statement applied at the concrete jump-table
helper. -/
theorem c1_amended_jump_table_offset_witness :
    EmitBegin jtHelper { trace := [], nextLabel := 1 } =
      { trace := [.insRL .INS_adr 8 1 (.R 9),
          .insRRRI .INS_add 8 (.R 9) (.R 9) (.R 5) 3 .INS_OPTS_LSL,
          .insR .INS_br 8 (.R 9), .defineLabel 1],
        nextLabel := 2 } ∧
    2 ^ 3 = 2 * arm64InstructionSize :=
  c1_amended_jump_table_offset jtHelper { trace := [], nextLabel := 1 }
    (by decide) (by decide)

/-- C5 (amended): `EmitCaseEnd` increments the current value by exactly one;
`Done()` holds exactly when the current value equals the exclusive upper
bound; the number of case bodies run between `EmitBegin` and `Done` equals
the exclusive upper bound minus the initial current value (which is the
upper bound itself exactly in the non-constant modes, where the value starts
at 0); each non-last case of a non-constant operand emits exactly one
unconditional branch to the after-all-cases label and the last case none,
while a constant operand emits no branch at all. -/
theorem c5_amended_case_protocol :
    (∀ (h : HWIntrinsicImmOpHelper) (s : EmitState), h.Done = false →
       ∃ s', EmitCaseEnd h s = .ok ({ h with immValue := h.immValue + 1 }, s')) ∧
    (∀ h : HWIntrinsicImmOpHelper, h.Done = true ↔ h.immValue = h.immUpperBound) ∧
    (∀ (i : instruction) (sz : Nat) (d r : Reg) (o : insOpts)
       (h : HWIntrinsicImmOpHelper) (s : EmitState) (n : Nat),
       h.immUpperBound = h.immValue + n →
       ∃ suffix,
         runImmLoop (fun v st => emit (.insRRI i sz d r v o) st) h s =
           .ok { trace := s.trace ++ suffix,
                 nextLabel := s.nextLabel +
                   loopLabels (!h.NonConstImmOp) h.TestImmOpZeroOrOne n } ∧
         suffix.countP isCaseRRI = n ∧
         suffix.countP isBranchB = (if h.NonConstImmOp then n - 1 else 0)) := by
  refine ⟨?_, ?_, ?_⟩
  · intro h s hd
    refine ⟨(if h.NonConstImmOp then
        (if h.immValue + 1 = h.immUpperBound then
          genDefineInlineTempLabel (h.endLabel.getD 0) s
        else
          let sb := emit (.insJ .INS_b (h.endLabel.getD 0)) s
          if h.TestImmOpZeroOrOne then
            genDefineInlineTempLabel (h.nonZeroLabel.getD 0) sb
          else
            let p := genCreateTempLabel sb
            genDefineInlineTempLabel p.1 p.2)
      else s), ?_⟩
    simp [EmitCaseEnd, hd, genCreateTempLabel]
  · intro h
    simp [HWIntrinsicImmOpHelper.Done]
  · intro i sz d r o h s n hub
    refine ⟨_, runImmLoop_spec (fun v => .insRRI i sz d r v o) n h s hub, ?_, ?_⟩
    · exact loopTrace_countP isCaseRRI (fun v => .insRRI i sz d r v o)
        (fun v => rfl) (fun i l => rfl) (fun l => rfl) n _ _ _ _ _ _
    · rw [loopTrace_countB isBranchB (fun v => .insRRI i sz d r v o)
        (fun v => rfl) (fun i l => rfl) (fun l => rfl)]
      cases hc : h.NonConstImmOp <;> simp [hc]

/-- C5 witness: the amended protocol facts applied at concrete inputs. -/
theorem c5_amended_case_protocol_witness :
    (∃ s', EmitCaseEnd jtHelper emptyState =
       .ok ({ jtHelper with immValue := 1 }, s')) ∧
    (jtHelper.Done = true ↔ jtHelper.immValue = jtHelper.immUpperBound) ∧
    (∃ suffix,
       runImmLoop (fun v st => emit (.insRRI (.lookup (.other 0) .TYP_INT) 4 (.R 0)
           (.R 1) v .INS_OPTS_NONE) st) jtHelper emptyState =
         .ok { trace := suffix,
               nextLabel := loopLabels (!jtHelper.NonConstImmOp)
                 jtHelper.TestImmOpZeroOrOne 4 } ∧
       suffix.countP isCaseRRI = 4 ∧
       suffix.countP isBranchB = (if jtHelper.NonConstImmOp then 4 - 1 else 0)) := by
  refine ⟨c5_amended_case_protocol.1 jtHelper emptyState (by decide), 
    c5_amended_case_protocol.2.1 jtHelper, ?_⟩
  obtain ⟨suffix, h1, h2, h3⟩ :=
    c5_amended_case_protocol.2.2 (.lookup (.other 0) .TYP_INT) 4 (.R 0) (.R 1)
      .INS_OPTS_NONE jtHelper emptyState 4 (by decide)
  exact ⟨suffix, h1, h2, h3⟩

/-- C5 counterexample: for a run of the protocol built on the contained
constant 1, exactly one case body runs while the exclusive upper bound is 2,
so the claimed equality of the body count with the upper bound fails (only
the parenthesized form, bound minus initial value, holds). -/
theorem c5_counterexample_constant_run :
    mkImmOpHelper baseNode (GenTree.intCon 1) emptyState =
      .ok (constImmHelper 1, emptyState) ∧
    EmitBegin (constImmHelper 1) emptyState = emptyState ∧
    runImmLoop (fun v st => emit (.insRRI (.lookup (.other 0) .TYP_INT) 4 (.R 0) (.R 1)
        v .INS_OPTS_NONE) st) (constImmHelper 1) emptyState =
      .ok { trace := [.insRRI (.lookup (.other 0) .TYP_INT) 4 (.R 0) (.R 1) 1
              .INS_OPTS_NONE],
            nextLabel := 0 } ∧
    (constImmHelper 1).immUpperBound = 2 ∧
    ([Event.insRRI (.lookup (.other 0) .TYP_INT) 4 (.R 0) (.R 1) 1
        .INS_OPTS_NONE].countP isCaseRRI = 1) ∧
    (1 : Nat) ≠ 2 := by
  refine ⟨by decide, by decide, by decide, by decide, by decide, by decide⟩

/-- C2: for every table-driven RMW operation — 2-operand, and 3-operand
(always RMW) — no move is emitted when the target register equals the first
source operand's register, exactly one move of source 1 into the target
precedes the operation when they differ, and the operation is emitted with
the target as destructive first operand. -/
theorem c2_rmw_single_move :
    (∀ (node : GenTreeHWIntrinsic) (s : EmitState) (o1 o2 : GenTree),
       node.tableDriven = true → node.isRMW = true → node.numOperands = 2 →
       node.op1 = some o1 → node.op2 = some o2 →
       node.targetReg ≠ o2.GetRegNum →
       genHWIntrinsic node s = .ok
         { trace := s.trace ++
             (if node.targetReg = o1.GetRegNum then
               [Event.insRR (.lookup node.id node.baseType) (computeEmitSizeOpt node).1
                 node.targetReg o2.GetRegNum (computeEmitSizeOpt node).2]
             else
               [Event.insRR .INS_mov (computeEmitSizeOpt node).1 node.targetReg
                  o1.GetRegNum .INS_OPTS_NONE,
                Event.insRR (.lookup node.id node.baseType) (computeEmitSizeOpt node).1
                  node.targetReg o2.GetRegNum (computeEmitSizeOpt node).2]),
           nextLabel := s.nextLabel }) ∧
    (∀ (node : GenTreeHWIntrinsic) (s : EmitState) (o1 o2 o3 : GenTree),
       node.tableDriven = true → node.isRMW = true → node.numOperands = 3 →
       node.op1 = some o1 → node.op2 = some o2 → node.op3 = some o3 →
       node.targetReg ≠ o2.GetRegNum → node.targetReg ≠ o3.GetRegNum →
       genHWIntrinsic node s = .ok
         { trace := s.trace ++
             (if node.targetReg = o1.GetRegNum then
               [Event.insRRR (.lookup node.id node.baseType) (computeEmitSizeOpt node).1
                 node.targetReg o2.GetRegNum o3.GetRegNum (computeEmitSizeOpt node).2]
             else
               [Event.insRR .INS_mov (computeEmitSizeOpt node).1 node.targetReg
                  o1.GetRegNum .INS_OPTS_NONE,
                Event.insRRR (.lookup node.id node.baseType) (computeEmitSizeOpt node).1
                  node.targetReg o2.GetRegNum o3.GetRegNum (computeEmitSizeOpt node).2]),
           nextLabel := s.nextLabel }) := by
  constructor
  · intro node s o1 o2 htd hrmw hn h1 h2 hne
    have hext : extractOperandRegs node = some (o1.GetRegNum, o2.GetRegNum, .NA) := by
      simp [extractOperandRegs, hn, h1, h2]
    unfold genHWIntrinsic
    rw [hext]
    simp only [htd, if_true]
    unfold genTableDriven
    simp only [hn, hrmw, if_true, if_neg hne]
    by_cases he : node.targetReg = o1.GetRegNum <;> simp [he, emit]
  · intro node s o1 o2 o3 htd hrmw hn h1 h2 h3 hne2 hne3
    have hext : extractOperandRegs node =
        some (o1.GetRegNum, o2.GetRegNum, o3.GetRegNum) := by
      simp [extractOperandRegs, hn, h1, h2, h3]
    unfold genHWIntrinsic
    rw [hext]
    simp only [htd, if_true]
    unfold genTableDriven
    simp only [hn, hrmw, if_neg hne2, if_neg hne3]
    by_cases he : node.targetReg = o1.GetRegNum <;> simp [he, emit]

/-- C2 witness: both arities at concrete nodes, once not aliasing the first
source (one move precedes the operation) and once aliasing it (no move). -/
theorem c2_rmw_single_move_witness :
    genHWIntrinsic rmw2Node emptyState = .ok
      { trace :=
          (if rmw2Node.targetReg = (GenTree.reg 1).GetRegNum then
            [Event.insRR (.lookup rmw2Node.id rmw2Node.baseType)
              (computeEmitSizeOpt rmw2Node).1 rmw2Node.targetReg
              (GenTree.reg 2).GetRegNum (computeEmitSizeOpt rmw2Node).2]
          else
            [Event.insRR .INS_mov (computeEmitSizeOpt rmw2Node).1 rmw2Node.targetReg
               (GenTree.reg 1).GetRegNum .INS_OPTS_NONE,
             Event.insRR (.lookup rmw2Node.id rmw2Node.baseType)
               (computeEmitSizeOpt rmw2Node).1 rmw2Node.targetReg
               (GenTree.reg 2).GetRegNum (computeEmitSizeOpt rmw2Node).2]),
        nextLabel := 0 } ∧
    genHWIntrinsic rmw3Node emptyState = .ok
      { trace :=
          (if rmw3Node.targetReg = (GenTree.reg 1).GetRegNum then
            [Event.insRRR (.lookup rmw3Node.id rmw3Node.baseType)
              (computeEmitSizeOpt rmw3Node).1 rmw3Node.targetReg
              (GenTree.reg 2).GetRegNum (GenTree.reg 3).GetRegNum
              (computeEmitSizeOpt rmw3Node).2]
          else
            [Event.insRR .INS_mov (computeEmitSizeOpt rmw3Node).1 rmw3Node.targetReg
               (GenTree.reg 1).GetRegNum .INS_OPTS_NONE,
             Event.insRRR (.lookup rmw3Node.id rmw3Node.baseType)
               (computeEmitSizeOpt rmw3Node).1 rmw3Node.targetReg
               (GenTree.reg 2).GetRegNum (GenTree.reg 3).GetRegNum
               (computeEmitSizeOpt rmw3Node).2]),
        nextLabel := 0 } :=
  ⟨c2_rmw_single_move.1 rmw2Node emptyState (.reg 1) (.reg 2)
      (by decide) (by decide) (by decide) (by decide) (by decide) (by decide),
   c2_rmw_single_move.2 rmw3Node emptyState (.reg 1) (.reg 2) (.reg 3)
      (by decide) (by decide) (by decide) (by decide) (by decide) (by decide)
      (by decide) (by decide)⟩

/-- C6: for every operation of the less-than / less-than-or-equal comparison
families (absolute-compare and scalar variants included), the emitted
instruction's source operands are in the order (operand 2, operand 1) —
reversed from the invocation order — with the target register as
destination. -/
theorem c6_less_than_operands_reversed (node : GenTreeHWIntrinsic) (s : EmitState)
    (o1 o2 : GenTree) (hid : isLessThanFamily node.id = true)
    (htd : node.tableDriven = false) (hn : node.numOperands = 2)
    (h1 : node.op1 = some o1) (h2 : node.op2 = some o2) :
    genHWIntrinsic node s = .ok
      { trace := s.trace ++
          [Event.insRRR (.lookup node.id node.baseType) (computeEmitSizeOpt node).1
            node.targetReg o2.GetRegNum o1.GetRegNum (computeEmitSizeOpt node).2],
        nextLabel := s.nextLabel } := by
  have hext : extractOperandRegs node = some (o1.GetRegNum, o2.GetRegNum, .NA) := by
    simp [extractOperandRegs, hn, h1, h2]
  unfold genHWIntrinsic
  rw [hext]
  simp only [htd, Bool.false_eq_true, if_false]
  rcases node with ⟨id, cat, bt, ssz, nops, no1, no2, no3, tr, rmw, td, lna, ub, gmi, str, so⟩
  cases id <;> simp_all [isLessThanFamily, selectSpecialIns, genSpecial, emit]

/-- C6 witness: a concrete less-than comparison emits (target, op2, op1). -/
theorem c6_less_than_operands_reversed_witness :
    genHWIntrinsic ltNode emptyState = .ok
      { trace :=
          [Event.insRRR (.lookup ltNode.id ltNode.baseType)
            (computeEmitSizeOpt ltNode).1 ltNode.targetReg
            (GenTree.reg 2).GetRegNum (GenTree.reg 1).GetRegNum
            (computeEmitSizeOpt ltNode).2],
        nextLabel := 0 } :=
  c6_less_than_operands_reversed ltNode emptyState (.reg 1) (.reg 2)
    (by decide) (by decide) (by decide) (by decide) (by decide)

/-- C7: for the bitwise-select operation the four aliasing cases emit, in
order of the source's checks: target = op1 — one `bsl` with sources
(op2, op3); else target = op2 — one `bif` with sources (op3, op1); else
target = op3 — one `bit` with sources (op2, op1); else a move of op1 into
the target followed by the `bsl` form with sources (op2, op3) — counts
1, 1, 1, 2. -/
theorem c7_bitwise_select_aliasing (node : GenTreeHWIntrinsic) (s : EmitState)
    (o1 o2 o3 : GenTree) (hid : node.id = .NI_AdvSimd_BitwiseSelect)
    (htd : node.tableDriven = false) (hrmw : node.isRMW = false)
    (hn : node.numOperands = 3) (h1 : node.op1 = some o1) (h2 : node.op2 = some o2)
    (h3 : node.op3 = some o3) :
    genHWIntrinsic node s = .ok
      { trace := s.trace ++
          (if node.targetReg = o1.GetRegNum then
            [Event.insRRR .INS_bsl (computeEmitSizeOpt node).1 node.targetReg
              o2.GetRegNum o3.GetRegNum (computeEmitSizeOpt node).2]
          else if node.targetReg = o2.GetRegNum then
            [Event.insRRR .INS_bif (computeEmitSizeOpt node).1 node.targetReg
              o3.GetRegNum o1.GetRegNum (computeEmitSizeOpt node).2]
          else if node.targetReg = o3.GetRegNum then
            [Event.insRRR .INS_bit (computeEmitSizeOpt node).1 node.targetReg
              o2.GetRegNum o1.GetRegNum (computeEmitSizeOpt node).2]
          else
            [Event.insRR .INS_mov (computeEmitSizeOpt node).1 node.targetReg
               o1.GetRegNum .INS_OPTS_NONE,
             Event.insRRR .INS_bsl (computeEmitSizeOpt node).1 node.targetReg
               o2.GetRegNum o3.GetRegNum (computeEmitSizeOpt node).2]),
        nextLabel := s.nextLabel } := by
  have hext : extractOperandRegs node = some (o1.GetRegNum, o2.GetRegNum, o3.GetRegNum) := by
    simp [extractOperandRegs, hn, h1, h2, h3]
  unfold genHWIntrinsic
  rw [hext]
  simp only [htd, Bool.false_eq_true, if_false]
  have hsel : selectSpecialIns node = some (.lookup node.id node.baseType) := by
    rw [hid]
    simp [selectSpecialIns, hid]
  rw [hsel]
  unfold genSpecial
  rw [hid]
  simp only [hrmw, Bool.false_eq_true, if_false]
  split_ifs with e1 e2 e3 <;> simp [emit]

/-- C7 witness: the spec's end-to-end example — target R0 aliasing operand 1
gives one instruction; moving operand 1 to R3 (no alias) gives a move plus
the same instruction form. -/
theorem c7_bitwise_select_aliasing_witness :
    genHWIntrinsic bslAlias1Node emptyState = .ok
      { trace :=
          (if bslAlias1Node.targetReg = (GenTree.reg 0).GetRegNum then
            [Event.insRRR .INS_bsl (computeEmitSizeOpt bslAlias1Node).1
              bslAlias1Node.targetReg (GenTree.reg 1).GetRegNum
              (GenTree.reg 2).GetRegNum (computeEmitSizeOpt bslAlias1Node).2]
          else if bslAlias1Node.targetReg = (GenTree.reg 1).GetRegNum then
            [Event.insRRR .INS_bif (computeEmitSizeOpt bslAlias1Node).1
              bslAlias1Node.targetReg (GenTree.reg 2).GetRegNum
              (GenTree.reg 0).GetRegNum (computeEmitSizeOpt bslAlias1Node).2]
          else if bslAlias1Node.targetReg = (GenTree.reg 2).GetRegNum then
            [Event.insRRR .INS_bit (computeEmitSizeOpt bslAlias1Node).1
              bslAlias1Node.targetReg (GenTree.reg 1).GetRegNum
              (GenTree.reg 0).GetRegNum (computeEmitSizeOpt bslAlias1Node).2]
          else
            [Event.insRR .INS_mov (computeEmitSizeOpt bslAlias1Node).1
               bslAlias1Node.targetReg (GenTree.reg 0).GetRegNum .INS_OPTS_NONE,
             Event.insRRR .INS_bsl (computeEmitSizeOpt bslAlias1Node).1
               bslAlias1Node.targetReg (GenTree.reg 1).GetRegNum
               (GenTree.reg 2).GetRegNum (computeEmitSizeOpt bslAlias1Node).2]),
        nextLabel := 0 } ∧
    genHWIntrinsic bslNoAliasNode emptyState = .ok
      { trace :=
          (if bslNoAliasNode.targetReg = (GenTree.reg 3).GetRegNum then
            [Event.insRRR .INS_bsl (computeEmitSizeOpt bslNoAliasNode).1
              bslNoAliasNode.targetReg (GenTree.reg 1).GetRegNum
              (GenTree.reg 2).GetRegNum (computeEmitSizeOpt bslNoAliasNode).2]
          else if bslNoAliasNode.targetReg = (GenTree.reg 1).GetRegNum then
            [Event.insRRR .INS_bif (computeEmitSizeOpt bslNoAliasNode).1
              bslNoAliasNode.targetReg (GenTree.reg 2).GetRegNum
              (GenTree.reg 3).GetRegNum (computeEmitSizeOpt bslNoAliasNode).2]
          else if bslNoAliasNode.targetReg = (GenTree.reg 2).GetRegNum then
            [Event.insRRR .INS_bit (computeEmitSizeOpt bslNoAliasNode).1
              bslNoAliasNode.targetReg (GenTree.reg 1).GetRegNum
              (GenTree.reg 3).GetRegNum (computeEmitSizeOpt bslNoAliasNode).2]
          else
            [Event.insRR .INS_mov (computeEmitSizeOpt bslNoAliasNode).1
               bslNoAliasNode.targetReg (GenTree.reg 3).GetRegNum .INS_OPTS_NONE,
             Event.insRRR .INS_bsl (computeEmitSizeOpt bslNoAliasNode).1
               bslNoAliasNode.targetReg (GenTree.reg 1).GetRegNum
               (GenTree.reg 2).GetRegNum (computeEmitSizeOpt bslNoAliasNode).2]),
        nextLabel := 0 } :=
  ⟨c7_bitwise_select_aliasing bslAlias1Node emptyState (.reg 0) (.reg 1) (.reg 2)
      (by decide) (by decide) (by decide) (by decide) (by decide) (by decide)
      (by decide),
   c7_bitwise_select_aliasing bslNoAliasNode emptyState (.reg 3) (.reg 1) (.reg 2)
      (by decide) (by decide) (by decide) (by decide) (by decide) (by decide)
      (by decide)⟩

/-- C9: for table-driven RMW invocations, if the target register equals a
pure-source operand register (operand 2 for the 2-operand form; operand 2 or
3 for the 3-operand form), code generation halts by a fatal assertion with
nothing emitted for the node (the error carries the untouched entry state);
when the target aliases no pure source, no assertion fires and emission
succeeds. -/
theorem c9_rmw_alias_assertion :
    (∀ (node : GenTreeHWIntrinsic) (s : EmitState) (o1 o2 : GenTree),
       node.tableDriven = true → node.isRMW = true → node.numOperands = 2 →
       node.op1 = some o1 → node.op2 = some o2 →
       node.targetReg = o2.GetRegNum →
       genHWIntrinsic node s = .error s) ∧
    (∀ (node : GenTreeHWIntrinsic) (s : EmitState) (o1 o2 o3 : GenTree),
       node.tableDriven = true → node.isRMW = true → node.numOperands = 3 →
       node.op1 = some o1 → node.op2 = some o2 → node.op3 = some o3 →
       (node.targetReg = o2.GetRegNum ∨ node.targetReg = o3.GetRegNum) →
       genHWIntrinsic node s = .error s) ∧
    (∀ (node : GenTreeHWIntrinsic) (s : EmitState) (o1 o2 : GenTree),
       node.tableDriven = true → node.isRMW = true → node.numOperands = 2 →
       node.op1 = some o1 → node.op2 = some o2 →
       node.targetReg ≠ o2.GetRegNum →
       ∃ s', genHWIntrinsic node s = .ok s') ∧
    (∀ (node : GenTreeHWIntrinsic) (s : EmitState) (o1 o2 o3 : GenTree),
       node.tableDriven = true → node.isRMW = true → node.numOperands = 3 →
       node.op1 = some o1 → node.op2 = some o2 → node.op3 = some o3 →
       node.targetReg ≠ o2.GetRegNum → node.targetReg ≠ o3.GetRegNum →
       ∃ s', genHWIntrinsic node s = .ok s') := by
  refine ⟨?_, ?_, ?_, ?_⟩
  · intro node s o1 o2 htd hrmw hn h1 h2 halias
    have hext : extractOperandRegs node = some (o1.GetRegNum, o2.GetRegNum, .NA) := by
      simp [extractOperandRegs, hn, h1, h2]
    unfold genHWIntrinsic
    rw [hext]
    simp only [htd, if_true]
    unfold genTableDriven
    simp only [hn, hrmw, if_true, halias, if_pos rfl]
  · intro node s o1 o2 o3 htd hrmw hn h1 h2 h3 halias
    have hext : extractOperandRegs node =
        some (o1.GetRegNum, o2.GetRegNum, o3.GetRegNum) := by
      simp [extractOperandRegs, hn, h1, h2, h3]
    unfold genHWIntrinsic
    rw [hext]
    simp only [htd, if_true]
    unfold genTableDriven
    rcases halias with halias | halias
    · simp only [hn, hrmw, halias, if_pos rfl]
      simp
    · simp only [hn, hrmw, halias]
      split_ifs <;> simp
  · intro node s o1 o2 htd hrmw hn h1 h2 hne
    have hext : extractOperandRegs node = some (o1.GetRegNum, o2.GetRegNum, .NA) := by
      simp [extractOperandRegs, hn, h1, h2]
    unfold genHWIntrinsic
    rw [hext]
    simp only [htd, if_true]
    unfold genTableDriven
    simp only [hn, hrmw, if_true, if_neg hne]
    by_cases he : node.targetReg = o1.GetRegNum <;> simp [he, emit]
  · intro node s o1 o2 o3 htd hrmw hn h1 h2 h3 hne2 hne3
    have hext : extractOperandRegs node =
        some (o1.GetRegNum, o2.GetRegNum, o3.GetRegNum) := by
      simp [extractOperandRegs, hn, h1, h2, h3]
    unfold genHWIntrinsic
    rw [hext]
    simp only [htd, if_true]
    unfold genTableDriven
    simp only [hn, hrmw, if_neg hne2, if_neg hne3]
    by_cases he : node.targetReg = o1.GetRegNum <;> simp [he, emit]

/-- C9 witness: aliasing targets halt with the entry state unchanged;
non-aliasing targets emit successfully. -/
theorem c9_rmw_alias_assertion_witness :
    genHWIntrinsic rmw2AliasNode emptyState = .error emptyState ∧
    genHWIntrinsic rmw3AliasNode emptyState = .error emptyState ∧
    (∃ s', genHWIntrinsic rmw2Node emptyState = .ok s') ∧
    (∃ s', genHWIntrinsic rmw3Node emptyState = .ok s') :=
  ⟨c9_rmw_alias_assertion.1 rmw2AliasNode emptyState (.reg 1) (.reg 2)
      (by decide) (by decide) (by decide) (by decide) (by decide) (by decide),
   c9_rmw_alias_assertion.2.1 rmw3AliasNode emptyState (.reg 1) (.reg 2) (.reg 3)
      (by decide) (by decide) (by decide) (by decide) (by decide) (by decide)
      (Or.inr (by decide)),
   c9_rmw_alias_assertion.2.2.1 rmw2Node emptyState (.reg 1) (.reg 2)
      (by decide) (by decide) (by decide) (by decide) (by decide) (by decide),
   c9_rmw_alias_assertion.2.2.2 rmw3Node emptyState (.reg 1) (.reg 2) (.reg 3)
      (by decide) (by decide) (by decide) (by decide) (by decide) (by decide)
      (by decide) (by decide)⟩

/-- C10: for the insert-lane operation with a contained floating-point value
operand, the lane-index operand must be a contained integer constant equal
to 0 — anything else fires the assertion after the optional move, emitting
nothing further — and in the allowed case a direct float-immediate move into
the target is emitted, preceded by a move of operand 1 into the target
exactly when the target register differs from operand 1's register. -/
theorem c10_insert_float_immediate (node : GenTreeHWIntrinsic) (s : EmitState)
    (o1 o2 : GenTree) (bits : Nat) (t : Nat)
    (hid : node.id = .NI_AdvSimd_Insert) (htd : node.tableDriven = false)
    (hrmw : node.isRMW = true) (hn : node.numOperands = 3)
    (h1 : node.op1 = some o1) (h2 : node.op2 = some o2)
    (h3 : node.op3 = some (.dblCon bits)) (ht : node.targetReg = .R t) :
    (o2 ≠ GenTree.intCon 0 →
      genHWIntrinsic node s = .error
        { trace := s.trace ++
            (if node.targetReg = o1.GetRegNum then [] else
              [Event.insRR .INS_mov (computeEmitSizeOpt node).1 node.targetReg
                o1.GetRegNum .INS_OPTS_NONE]),
          nextLabel := s.nextLabel }) ∧
    (o2 = GenTree.intCon 0 →
      genHWIntrinsic node s = .ok
        { trace := s.trace ++
            (if node.targetReg = o1.GetRegNum then [] else
              [Event.insRR .INS_mov (computeEmitSizeOpt node).1 node.targetReg
                o1.GetRegNum .INS_OPTS_NONE]) ++
            [Event.insRF .INS_fmov (emitTypeSize node.baseType) node.targetReg bits
              .INS_OPTS_NONE],
          nextLabel := s.nextLabel }) := by
  have hext : extractOperandRegs node =
      some (o1.GetRegNum, o2.GetRegNum, (GenTree.dblCon bits).GetRegNum) := by
    simp [extractOperandRegs, hn, h1, h2, h3]
  have hna : node.targetReg ≠ (GenTree.dblCon bits).GetRegNum := by
    rw [ht]
    simp [GenTree.GetRegNum]
  constructor
  · intro hbad
    unfold genHWIntrinsic
    rw [hext]
    simp only [htd, Bool.false_eq_true, if_false]
    have hsel : selectSpecialIns node = some (.lookup node.id node.baseType) := by
      rw [hid]
      simp [selectSpecialIns, hid]
    rw [hsel]
    unfold genSpecial
    rw [hid]
    simp only [hrmw, if_neg hna, h3, h2, GenTree.isContainedFltOrDblImmed]
    rcases o2 with r | v | b
    · simp [GenTree.isContainedIntOrIImmed, emit]
      split_ifs <;> simp
    · have hv : v ≠ 0 := by
        intro hv0
        exact hbad (by rw [hv0])
      simp [GenTree.isContainedIntOrIImmed, GenTree.intConValue, hv, emit]
      split_ifs <;> simp
    · simp [GenTree.isContainedIntOrIImmed, emit]
      split_ifs <;> simp
  · intro hzero
    subst hzero
    unfold genHWIntrinsic
    rw [hext]
    simp only [htd, Bool.false_eq_true, if_false]
    have hsel : selectSpecialIns node = some (.lookup node.id node.baseType) := by
      rw [hid]
      simp [selectSpecialIns, hid]
    rw [hsel]
    unfold genSpecial
    rw [hid]
    simp only [hrmw, if_neg hna, h3, h2, GenTree.isContainedFltOrDblImmed,
      GenTree.isContainedIntOrIImmed, GenTree.intConValue, GenTree.dblConBits]
    simp [emit]
    split_ifs <;> simp

/-- C10 witness: the insert-lane sample with lane index 0 emits the move and
the float-immediate move; with lane index 1 the assertion fires right after
the move. -/
theorem c10_insert_float_immediate_witness :
    genHWIntrinsic insertFltNode emptyState = .ok
      { trace :=
          (if insertFltNode.targetReg = (GenTree.reg 3).GetRegNum then [] else
            [Event.insRR .INS_mov (computeEmitSizeOpt insertFltNode).1
              insertFltNode.targetReg (GenTree.reg 3).GetRegNum .INS_OPTS_NONE]) ++
          [Event.insRF .INS_fmov (emitTypeSize insertFltNode.baseType)
            insertFltNode.targetReg 77 .INS_OPTS_NONE],
        nextLabel := 0 } ∧
    genHWIntrinsic insertFltBadNode emptyState = .error
      { trace :=
          (if insertFltBadNode.targetReg = (GenTree.reg 3).GetRegNum then [] else
            [Event.insRR .INS_mov (computeEmitSizeOpt insertFltBadNode).1
              insertFltBadNode.targetReg (GenTree.reg 3).GetRegNum .INS_OPTS_NONE]),
        nextLabel := 0 } :=
  ⟨by
    have h := (c10_insert_float_immediate insertFltNode emptyState (.reg 3)
      (.intCon 0) 77 0 (by decide) (by decide) (by decide) (by decide) (by decide)
      (by decide) (by decide) (by decide)).2 rfl
    simpa using h,
   by
    have h := (c10_insert_float_immediate insertFltBadNode emptyState (.reg 3)
      (.intCon 1) 77 0 (by decide) (by decide) (by decide) (by decide) (by decide)
      (by decide) (by decide) (by decide)).1 (by decide)
    simpa using h⟩

/-- Reindexing a range map started at zero. -/
theorem range_map_zero_add (e : Int → Event) (n : Nat) :
    (List.range n).map (fun k : Nat => e ((0 : Int) + k)) =
      (List.range n).map (fun k : Nat => e (k : Int)) := by
  apply List.map_congr_left
  intro k _
  norm_num

/-- For an immediate operand held in a register with oracle bound `n`, the
full dispatch construct (helper construction, `EmitBegin`, case loop) run
with a single-instruction body appends a suffix whose body-event subsequence
is exactly one event per immediate value `0 .. n-1`, in order — in both the
branch-on-nonzero and the jump-table mode. -/
theorem dispatch_construct_filter (node : GenTreeHWIntrinsic) (r : Nat) (s : EmitState)
    (e : Int → Event) (p : Event → Bool) (n : Nat)
    (hub : node.immUpperBound = (n : Int)) (hgmi : node.generatesMultipleIns = false)
    (hpe : ∀ v, p (e v) = true)
    (hpb : ∀ i l, p (Event.insJ i l) = false)
    (hpd : ∀ l, p (Event.defineLabel l) = false)
    (hpc : ∀ i sz l rg, p (Event.insJR i sz l rg) = false)
    (hpa : ∀ i sz l rg, p (Event.insRL i sz l rg) = false)
    (hpadd : ∀ sz a b c i o, p (Event.insRRRI .INS_add sz a b c i o) = false)
    (hpbr : ∀ i sz rg, p (Event.insR i sz rg) = false) :
    ∃ h s1 pre nl2,
      mkImmOpHelper node (GenTree.reg r) s = .ok (h, s1) ∧
      runImmLoop (fun v st => emit (e v) st) h (EmitBegin h s1) =
        .ok { trace := s.trace ++ pre, nextLabel := nl2 } ∧
      pre.filter p = (List.range n).map (fun k : Nat => e (k : Int)) := by
  by_cases hb2 : node.immUpperBound = 2
  · have hz : (HWIntrinsicImmOpHelper.mk (some (s.nextLabel + 1)) (some s.nextLabel)
        .NA (.R r) 0 2).TestImmOpZeroOrOne = true := by
      simp [HWIntrinsicImmOpHelper.TestImmOpZeroOrOne, HWIntrinsicImmOpHelper.NonConstImmOp]
    have hn2 : n = 2 := by omega
    subst hn2
    have hmk := mkImmOpHelper_reg_zeroOne node r s hb2
    have hrun := runImmLoop_spec e 2
      (HWIntrinsicImmOpHelper.mk (some (s.nextLabel + 1)) (some s.nextLabel) .NA
        (.R r) 0 2)
      (EmitBegin (HWIntrinsicImmOpHelper.mk (some (s.nextLabel + 1)) (some s.nextLabel)
        .NA (.R r) 0 2) { trace := s.trace, nextLabel := s.nextLabel + 2 })
      (by simp)
    conv at hrun =>
      rhs
      rw [EmitBegin_zeroOne _ _ hz]
      simp only [List.append_assoc, List.cons_append, List.nil_append]
    refine ⟨_, _, _, _, hmk, hrun, ?_⟩
    simp only [List.filter_cons, hpc, hpd, Bool.false_eq_true, if_false]
    rw [loopTrace_filter p e hpe hpb hpd]
    exact range_map_zero_add e 2
  · have hz : (HWIntrinsicImmOpHelper.mk (some s.nextLabel) none node.singleTempReg
        (.R r) 0 node.immUpperBound).TestImmOpZeroOrOne = false := by
      simp [HWIntrinsicImmOpHelper.TestImmOpZeroOrOne,
        HWIntrinsicImmOpHelper.NonConstImmOp, hb2]
    have hnc : (HWIntrinsicImmOpHelper.mk (some s.nextLabel) none node.singleTempReg
        (.R r) 0 node.immUpperBound).NonConstImmOp = true := by
      simp [HWIntrinsicImmOpHelper.NonConstImmOp]
    have hmk := mkImmOpHelper_reg_jumpTable node r s hb2 hgmi
    have hrun := runImmLoop_spec e n
      (HWIntrinsicImmOpHelper.mk (some s.nextLabel) none node.singleTempReg (.R r) 0
        node.immUpperBound)
      (EmitBegin (HWIntrinsicImmOpHelper.mk (some s.nextLabel) none node.singleTempReg
        (.R r) 0 node.immUpperBound) { trace := s.trace, nextLabel := s.nextLabel + 1 })
      (by simp [hub])
    conv at hrun =>
      rhs
      rw [EmitBegin_jumpTable _ _ hnc hz]
      simp only [List.append_assoc, List.cons_append, List.nil_append]
    refine ⟨_, _, _, _, hmk, hrun, ?_⟩
    simp only [List.filter_cons, hpc, hpd, hpa, hpadd, hpbr, Bool.false_eq_true, if_false]
    rw [loopTrace_filter p e hpe hpb hpd]
    exact range_map_zero_add e n

/-- C8: for the extract-vector-slice operations, the immediate embedded in
each emitted per-case instruction is the byte offset
`elementSize(baseType) * laneIndex`, not the raw lane index: with a contained
constant lane index `k` the single emitted instruction carries
`elementSize * k`, and with a register lane index and oracle bound `n` the
case instructions are exactly one per lane index `0 .. n-1`, in order, each
carrying `elementSize * laneIndex`. -/
theorem c8_extract_vector_byte_offset :
    (∀ (node : GenTreeHWIntrinsic) (s : EmitState) (o1 o2 : GenTree) (k : Int),
       (node.id = .NI_AdvSimd_ExtractVector64 ∨
         node.id = .NI_AdvSimd_ExtractVector128) →
       node.tableDriven = false → node.numOperands = 3 →
       node.op1 = some o1 → node.op2 = some o2 → node.op3 = some (.intCon k) →
       genHWIntrinsic node s = .ok
         { trace := s.trace ++
             [Event.insRRRI (.lookup node.id node.baseType) (computeEmitSizeOpt node).1
               node.targetReg o1.GetRegNum o2.GetRegNum
               ((genTypeSize node.baseType : Int) * k) (extractVecOpt node.id)],
           nextLabel := s.nextLabel }) ∧
    (∀ (node : GenTreeHWIntrinsic) (s : EmitState) (o1 o2 : GenTree) (r : Nat) (n : Nat),
       (node.id = .NI_AdvSimd_ExtractVector64 ∨
         node.id = .NI_AdvSimd_ExtractVector128) →
       node.tableDriven = false → node.numOperands = 3 →
       node.op1 = some o1 → node.op2 = some o2 → node.op3 = some (.reg r) →
       node.immUpperBound = (n : Int) → node.generatesMultipleIns = false →
       ∃ pre nl2,
         genHWIntrinsic node s = .ok { trace := s.trace ++ pre, nextLabel := nl2 } ∧
         pre.filter (isCaseRRRI (.lookup node.id node.baseType)) =
           (List.range n).map (fun j : Nat =>
             Event.insRRRI (.lookup node.id node.baseType) (computeEmitSizeOpt node).1
               node.targetReg o1.GetRegNum o2.GetRegNum
               ((genTypeSize node.baseType : Int) * j) (extractVecOpt node.id))) := by
  constructor
  · intro node s o1 o2 k hid htd hn h1 h2 h3
    obtain ⟨id, cat, bt, ssz, nops, no1, no2, no3, tr, rmw, td, lna, ub, gmi, str, so⟩ := node
    dsimp only at hid htd hn h1 h2 h3
    subst htd hn h1 h2 h3
    have hext : ∀ i, extractOperandRegs
        (GenTreeHWIntrinsic.mk i cat bt ssz 3 (some o1) (some o2) (some (.intCon k))
          tr rmw false lna ub gmi str so) =
        some (o1.GetRegNum, o2.GetRegNum, Reg.NA) := by
      intro i
      simp [extractOperandRegs, GenTree.GetRegNum]
    rcases hid with hid | hid <;> subst hid <;>
      (unfold genHWIntrinsic
       rw [hext]
       dsimp only
       simp only [selectSpecialIns]
       unfold genSpecial
       dsimp only
       simp only [mkImmOpHelper_const, EmitBegin_constImmHelper]
       rw [runImmLoop_spec _ 1 (constImmHelper k) s (by simp [constImmHelper])]
       simp [constImmHelper, HWIntrinsicImmOpHelper.NonConstImmOp,
         HWIntrinsicImmOpHelper.TestImmOpZeroOrOne, loopTrace, loopLabels])
  · intro node s o1 o2 r n hid htd hn h1 h2 h3 hub hgmi
    obtain ⟨id, cat, bt, ssz, nops, no1, no2, no3, tr, rmw, td, lna, ub, gmi, str, so⟩ := node
    dsimp only at hid htd hn h1 h2 h3 hub hgmi
    subst htd hn h1 h2 h3 hub hgmi
    have hext : ∀ i, extractOperandRegs
        (GenTreeHWIntrinsic.mk i cat bt ssz 3 (some o1) (some o2) (some (.reg r))
          tr rmw false lna (n : Int) false str so) =
        some (o1.GetRegNum, o2.GetRegNum, Reg.R r) := by
      intro i
      simp [extractOperandRegs, GenTree.GetRegNum]
    rcases hid with hid | hid
    · subst hid
      unfold genHWIntrinsic
      rw [hext]
      dsimp only
      simp only [selectSpecialIns]
      unfold genSpecial
      dsimp only
      obtain ⟨h, s1, pre, nl2, hmk, hrun, hfilter⟩ :=
        dispatch_construct_filter
          (GenTreeHWIntrinsic.mk .NI_AdvSimd_ExtractVector64 cat bt ssz 3 (some o1) (some o2)
            (some (.reg r)) tr rmw false lna (n : Int) false str so) r s
          (fun v => Event.insRRRI (.lookup .NI_AdvSimd_ExtractVector64 bt)
            (computeEmitSizeOpt (GenTreeHWIntrinsic.mk .NI_AdvSimd_ExtractVector64 cat bt ssz 3
              (some o1) (some o2) (some (.reg r)) tr rmw false lna (n : Int)
              false str so)).1
            tr o1.GetRegNum o2.GetRegNum ((genTypeSize bt : Int) * v)
            (extractVecOpt .NI_AdvSimd_ExtractVector64))
          (isCaseRRRI (.lookup .NI_AdvSimd_ExtractVector64 bt)) n rfl rfl
          (by intro v; simp [isCaseRRRI])
          (by intro i l; rfl) (by intro l; rfl) (by intro i sz l rg; rfl)
          (by intro i sz l rg; rfl) (by intro sz a b c i o; simp [isCaseRRRI])
          (by intro i sz rg; rfl)
      rw [hmk]
      dsimp only
      exact ⟨pre, nl2, hrun, hfilter⟩
    · subst hid
      unfold genHWIntrinsic
      rw [hext]
      dsimp only
      simp only [selectSpecialIns]
      unfold genSpecial
      dsimp only
      obtain ⟨h, s1, pre, nl2, hmk, hrun, hfilter⟩ :=
        dispatch_construct_filter
          (GenTreeHWIntrinsic.mk .NI_AdvSimd_ExtractVector128 cat bt ssz 3 (some o1) (some o2)
            (some (.reg r)) tr rmw false lna (n : Int) false str so) r s
          (fun v => Event.insRRRI (.lookup .NI_AdvSimd_ExtractVector128 bt)
            (computeEmitSizeOpt (GenTreeHWIntrinsic.mk .NI_AdvSimd_ExtractVector128 cat bt ssz 3
              (some o1) (some o2) (some (.reg r)) tr rmw false lna (n : Int)
              false str so)).1
            tr o1.GetRegNum o2.GetRegNum ((genTypeSize bt : Int) * v)
            (extractVecOpt .NI_AdvSimd_ExtractVector128))
          (isCaseRRRI (.lookup .NI_AdvSimd_ExtractVector128 bt)) n rfl rfl
          (by intro v; simp [isCaseRRRI])
          (by intro i l; rfl) (by intro l; rfl) (by intro i sz l rg; rfl)
          (by intro i sz l rg; rfl) (by intro sz a b c i o; simp [isCaseRRRI])
          (by intro i sz rg; rfl)
      rw [hmk]
      dsimp only
      exact ⟨pre, nl2, hrun, hfilter⟩

/-- C8 witness: the byte-offset immediates at concrete nodes — lane index 2
with a 4-byte element type gives immediate 8, and a register lane index with
bound 4 gives one case instruction per lane with immediates 0, 4, 8, 12. -/
theorem c8_extract_vector_byte_offset_witness :
    genHWIntrinsic extractVecConstNode emptyState = .ok
      { trace := emptyState.trace ++
          [Event.insRRRI (.lookup extractVecConstNode.id extractVecConstNode.baseType)
            (computeEmitSizeOpt extractVecConstNode).1 extractVecConstNode.targetReg
            (GenTree.reg 1).GetRegNum (GenTree.reg 2).GetRegNum
            ((genTypeSize extractVecConstNode.baseType : Int) * 2)
            (extractVecOpt extractVecConstNode.id)],
        nextLabel := emptyState.nextLabel } ∧
    (∃ pre nl2,
       genHWIntrinsic extractVecRegNode emptyState = .ok
         { trace := emptyState.trace ++ pre, nextLabel := nl2 } ∧
       pre.filter (isCaseRRRI (.lookup extractVecRegNode.id
           extractVecRegNode.baseType)) =
         (List.range 4).map (fun j : Nat =>
           Event.insRRRI (.lookup extractVecRegNode.id extractVecRegNode.baseType)
             (computeEmitSizeOpt extractVecRegNode).1 extractVecRegNode.targetReg
             (GenTree.reg 1).GetRegNum (GenTree.reg 2).GetRegNum
             ((genTypeSize extractVecRegNode.baseType : Int) * j)
             (extractVecOpt extractVecRegNode.id))) :=
  ⟨c8_extract_vector_byte_offset.1 extractVecConstNode emptyState (.reg 1) (.reg 2) 2
      (Or.inr (by decide)) (by decide) (by decide) (by decide) (by decide) (by decide),
   c8_extract_vector_byte_offset.2 extractVecRegNode emptyState (.reg 1) (.reg 2) 5 4
      (Or.inr (by decide)) (by decide) (by decide) (by decide) (by decide) (by decide)
      (by decide) (by decide)⟩
